import Mathlib

/-!
# CD3D_Device: device lifecycle, frame state machine and fence synchronisation

A shallow embedding of `src/D3D_Device.cpp` / `src/D3D_Device.h`.

* The aggregate `CD3D_Device` is the record `State`; a `ComPtr` or `HANDLE` field is an
  `Option Nat` (`none` is the empty handle).
* The native graphics API is an environment `Env` that fixes the outcome of every call the
  code makes (which creations succeed, what the swap chain and the fence report).
* Calling through an empty `ComPtr` and reading through a null `m_pMode` are faults: such
  an operation returns `Except.error`, it does not produce a state. Reading
  `m_renderTargets` outside its two slots is not checked by the code and is no fault: the
  code goes on with whatever lies past the array, which the model leaves undetermined.
* The calls issued to the queue, the command list and the log are recorded in a `List Call`.
* `float` is a type parameter `F`; `static_cast<float>` of an unsigned integer rounds to
  single precision (`roundToSingle`), exact up to `2 ^ 24`.
* A `RECT` member is a signed 32-bit `LONG`; storing a `uint32` in it and comparing it with
  a `uint32` go through `toLONG` and `toULONG`.
-/

namespace D3DDevice

/-- A `ComPtr<T>` or `HANDLE` field: `none` is the empty (null) handle. -/
abbrev Handle := Option Nat

/-- Modelled from the spec: `D3DModeInfo` is only forward declared in the header; the code
reads its `Width` and `Height` members (the display width/height of the mode). -/
structure D3DModeInfo where
  Width : Nat
  Height : Nat
deriving DecidableEq

/-- The Windows `RECT` / `D3D12_RECT`: four signed 32-bit `LONG` members. -/
structure RECT where
  left : Int
  top : Int
  right : Int
  bottom : Int
deriving DecidableEq

/-- Storing a `uint32` in a `LONG`: the same 32 bits read as signed, so a value from
`2 ^ 31` on becomes that value minus `2 ^ 32`. -/
def toLONG (n : Nat) : Int :=
  if n % 2 ^ 32 < 2 ^ 31 then ((n % 2 ^ 32 : Nat) : Int)
  else ((n % 2 ^ 32 : Nat) : Int) - 2 ^ 32

/-- Comparing a `LONG` with a `uint32` converts the `LONG` to unsigned 32-bit. -/
def toULONG (i : Int) : Nat := (i % 2 ^ 32).toNat

/-- The members of a `RECT` are in the range of a `LONG`. -/
def RECT.InRange (r : RECT) : Prop :=
  (-(2 ^ 31) ≤ r.left ∧ r.left < 2 ^ 31) ∧ (-(2 ^ 31) ≤ r.top ∧ r.top < 2 ^ 31) ∧
  (-(2 ^ 31) ≤ r.right ∧ r.right < 2 ^ 31) ∧ (-(2 ^ 31) ≤ r.bottom ∧ r.bottom < 2 ^ 31)

instance (r : RECT) : Decidable r.InRange := by
  unfold RECT.InRange
  infer_instance

/-- The `D3D12_VIEWPORT` description: six `float` members. -/
structure D3D12_VIEWPORT (F : Type) where
  TopLeftX : F
  TopLeftY : F
  Width : F
  Height : F
  MinDepth : F
  MaxDepth : F
deriving DecidableEq

/-- What the code needs from `float`: the value that holds a given integer (used only on
integers single precision represents) and the literals `0.0f` and `1.0f`. -/
structure FloatOps (F : Type) where
  ofInteger : Nat → F
  zero : F
  one : F

/-- How many bits a value has beyond the 24 a single-precision significand holds (`k` bounds
the count; 8 is enough for a 32-bit value). -/
def excessBits : Nat → Nat → Nat
  | 0, _ => 0
  | k + 1, n => if n < 2 ^ 24 then 0 else excessBits k (n / 2) + 1

/-- The integer `static_cast<float>` yields for an unsigned 32-bit value: the value itself
when it fits in 24 bits, otherwise the nearest multiple of `2 ^ e`, ties to the even one
(`e` being the number of excess bits). -/
def roundToSingle (n : Nat) : Nat :=
  let e := excessBits 8 n
  let q := n / 2 ^ e
  let r := n % 2 ^ e
  if 2 * r < 2 ^ e then q * 2 ^ e
  else if 2 ^ e < 2 * r then (q + 1) * 2 ^ e
  else if q % 2 = 0 then q * 2 ^ e
  else (q + 1) * 2 ^ e

/-- The conversion `static_cast<float>` of an unsigned 32-bit value. -/
def FloatOps.ofUInt {F : Type} (fl : FloatOps F) (n : Nat) : F :=
  fl.ofInteger (roundToSingle n)

/-- The constant `m_frameCount` of the header. -/
def m_frameCount : Nat := 2

/-- The array `ComPtr<ID3D12Resource> m_renderTargets[m_frameCount]`. -/
structure RenderTargets where
  slot0 : Handle
  slot1 : Handle
deriving DecidableEq

/-- Reading `m_renderTargets[i]`: `none` when `i` is outside the array. -/
def RenderTargets.get (r : RenderTargets) (i : Nat) : Option Handle :=
  match i with
  | 0 => some r.slot0
  | 1 => some r.slot1
  | _ => none

/-- Writing `m_renderTargets[i]` (only ever done with `i < m_frameCount`). -/
def RenderTargets.set (r : RenderTargets) (i : Nat) (h : Handle) : RenderTargets :=
  match i with
  | 0 => { r with slot0 := h }
  | 1 => { r with slot1 := h }
  | _ => r

/-- The data members of `CD3D_Device`, with the names of the header. -/
structure State (F : Type) where
  m_pD3DDevice : Handle
  m_commandQueue : Handle
  m_commandList : Handle
  m_factory : Handle
  m_swapChain : Handle
  m_commandAllocator : Handle
  m_rtvHeap : Handle
  m_dsvHeap : Handle
  m_fence : Handle
  m_fenceEvent : Handle
  m_fenceValue : Nat
  m_renderTargets : RenderTargets
  m_depthStencil : Handle
  m_frameIndex : Nat
  m_rtvDescriptorSize : Nat
  m_dsvDescriptorSize : Nat
  m_pAdapter : Option Nat
  m_pDevice : Option Nat
  m_pMode : Option D3DModeInfo
  m_bWindowed : Bool
  m_rcViewport : RECT
  m_viewportData : D3D12_VIEWPORT F
  m_scissorRect : RECT
  m_bIn3D : Bool
deriving DecidableEq

/-- One adapter as `EnumAdapters1` / `GetDesc1` / `D3D12CreateDevice` report it. -/
structure Adapter where
  software : Bool
  device : Handle

/-- The outcome of every native call the code makes. A creation call yields `some h` on
success and `none` on `FAILED`. -/
structure Env where
  factory : Handle
  adapters : List Adapter
  commandQueue : Handle
  commandAllocator : Handle
  commandList : Handle
  swapChain1 : Handle
  swapChain3 : Handle
  backBufferIndex : Nat
  rtvHeap : Handle
  dsvHeap : Handle
  rtvIncrement : Nat
  dsvIncrement : Nat
  rtvHeapStart : Nat
  buffers : Nat → Handle
  fence : Handle
  fenceEvent : Handle
  completedValue : Nat

/-- Why an operation does not complete. -/
inductive Fault where
  | emptyHandle
  | nullPointer
deriving DecidableEq

/-- The calls on the queue, the command list, the swap chain and the log that the
operations issue. -/
inductive Call where
  | debugLog (msg : String)
  | signal (fence : Handle) (value : Nat)
  | setEventOnCompletion (value : Nat) (event : Handle)
  | waitForSingleObject (event : Handle)
  | closeHandle (event : Nat)
  | swapChainPresent (syncInterval : Nat)
  | listClose
  | makeWindowAssociation
  | createRenderTargetView (resource : Nat) (ptr : Nat)
  | allocatorReset
  | listReset
  | rsSetViewports
  | rsSetScissorRects
  | resourceBarrier (resource : Handle) (toRenderTarget : Bool)
  | resourceBarrierPastArray (index : Nat) (toRenderTarget : Bool)
  | omSetRenderTargets (ptr : Nat)
  | clearRenderTargetView (ptr : Nat)
  | executeCommandLists (list : Nat)
deriving DecidableEq

section Operations

variable {F : Type}

/-- `CD3D_Device::ResetDeviceVars`. -/
def ResetDeviceVars (s : State F) : State F :=
  { s with
    m_pD3DDevice := none
    m_commandQueue := none
    m_commandList := none
    m_commandAllocator := none
    m_swapChain := none
    m_factory := none
    m_rtvHeap := none
    m_dsvHeap := none
    m_fence := none
    m_renderTargets :=
      (List.range m_frameCount).foldl (fun r i => r.set i none) s.m_renderTargets
    m_depthStencil := none
    m_pAdapter := none
    m_pDevice := none
    m_pMode := none
    m_bWindowed := false
    m_bIn3D := false
    m_fenceEvent := none
    m_fenceValue := 0
    m_frameIndex := 0 }

/-- `CD3D_Device::Reset`. -/
def Reset (s : State F) : State F :=
  { ResetDeviceVars s with m_rcViewport := { left := 0, top := 0, right := 0, bottom := 0 } }

/-- The constructor `CD3D_Device() { Reset(); }`: the `ComPtr` members start empty, the
other members hold whatever `raw` holds, then `Reset` runs. -/
def construct (raw : State F) : State F :=
  Reset { raw with
    m_pD3DDevice := none
    m_commandQueue := none
    m_commandList := none
    m_factory := none
    m_swapChain := none
    m_commandAllocator := none
    m_rtvHeap := none
    m_dsvHeap := none
    m_fence := none
    m_renderTargets := { slot0 := none, slot1 := none }
    m_depthStencil := none }

/-- `CD3D_Device::WaitForGPU`. `m_commandQueue->Signal` and `m_fence->GetCompletedValue`
go through the two handles; `m_fenceValue` is a `UINT64`. -/
def WaitForGPU (env : Env) (s : State F) : Except Fault (State F × List Call) :=
  let fence := s.m_fenceValue
  match s.m_commandQueue with
  | none => .error .emptyHandle
  | some _ =>
    let s1 := { s with m_fenceValue := (s.m_fenceValue + 1) % 2 ^ 64 }
    match s1.m_fence with
    | none => .error .emptyHandle
    | some _ =>
      if env.completedValue < fence then
        .ok (s1, [Call.signal s.m_fence fence,
                  Call.setEventOnCompletion fence s1.m_fenceEvent,
                  Call.waitForSingleObject s1.m_fenceEvent])
      else
        .ok (s1, [Call.signal s.m_fence fence])

/-- `CD3D_Device::FreeDevice`. -/
def FreeDevice (env : Env) (s : State F) : Except Fault (State F × List Call) :=
  match WaitForGPU env s with
  | .error e => .error e
  | .ok (s1, c1) =>
    let c2 := match s1.m_fenceEvent with
      | some ev => [Call.closeHandle ev]
      | none => []
    .ok (ResetDeviceVars s1, c1 ++ c2)

/-- `CD3D_Device::FreeAll`. -/
def FreeAll (env : Env) (s : State F) : Except Fault (State F × List Call) :=
  match FreeDevice env s with
  | .error e => .error e
  | .ok (s1, c1) => .ok (Reset s1, c1)

/-- The adapter loop of `InitializeD3D12`: software adapters are skipped, every other one
is tried with `D3D12CreateDevice` (which stores its result in `m_pD3DDevice`, empty on
failure) and the first success ends the loop. -/
def enumAdapters : List Adapter → Handle → Handle
  | [], dev => dev
  | a :: rest, dev =>
    if a.software then enumAdapters rest dev
    else
      match a.device with
      | some d => some d
      | none => enumAdapters rest none

/-- `CD3D_Device::InitializeD3D12` (release build: the debug layer only changes the factory
flags). The only handle it goes through is the factory it has just checked. -/
def InitializeD3D12 (env : Env) (s : State F) : Bool × State F :=
  let s1 := { s with m_factory := env.factory }
  match env.factory with
  | none => (false, s1)
  | some _ =>
    let s2 := { s1 with m_pD3DDevice := enumAdapters env.adapters s1.m_pD3DDevice }
    match s2.m_pD3DDevice with
    | none => (false, s2)
    | some _ => (true, s2)

/-- `CD3D_Device::CreateCommandObjects`. -/
def CreateCommandObjects (env : Env) (s : State F) :
    Except Fault (Bool × State F × List Call) :=
  match s.m_pD3DDevice with
  | none => .error .emptyHandle
  | some _ =>
    let s1 := { s with m_commandQueue := env.commandQueue }
    match env.commandQueue with
    | none => .ok (false, s1, [])
    | some _ =>
      let s2 := { s1 with m_commandAllocator := env.commandAllocator }
      match env.commandAllocator with
      | none => .ok (false, s2, [])
      | some _ =>
        let s3 := { s2 with m_commandList := env.commandList }
        match env.commandList with
        | none => .ok (false, s3, [])
        | some _ => .ok (true, s3, [Call.listClose])

/-- `CD3D_Device::CreateSwapChain`. The description reads `m_pMode->Width`. -/
def CreateSwapChain (env : Env) (s : State F) :
    Except Fault (Bool × State F × List Call) :=
  match s.m_pMode with
  | none => .error .nullPointer
  | some _ =>
    match s.m_factory with
    | none => .error .emptyHandle
    | some _ =>
      match env.swapChain1 with
      | none => .ok (false, s, [])
      | some _ =>
        let s1 := { s with m_swapChain := env.swapChain3 }
        match env.swapChain3 with
        | none => .ok (false, s1, [Call.makeWindowAssociation])
        | some _ =>
          .ok (true, { s1 with m_frameIndex := env.backBufferIndex },
            [Call.makeWindowAssociation])

/-- `CD3D_Device::CreateDescriptorHeaps`. -/
def CreateDescriptorHeaps (env : Env) (s : State F) :
    Except Fault (Bool × State F × List Call) :=
  match s.m_pD3DDevice with
  | none => .error .emptyHandle
  | some _ =>
    let s1 := { s with m_rtvHeap := env.rtvHeap }
    match env.rtvHeap with
    | none => .ok (false, s1, [])
    | some _ =>
      let s2 := { s1 with m_rtvDescriptorSize := env.rtvIncrement }
      let s3 := { s2 with m_dsvHeap := env.dsvHeap }
      match env.dsvHeap with
      | none => .ok (false, s3, [])
      | some _ => .ok (true, { s3 with m_dsvDescriptorSize := env.dsvIncrement }, [])

/-- The loop of `CreateRenderTargets`, with `k` iterations left, at slot `n` and descriptor
address `ptr` (a 64-bit `SIZE_T`). -/
def renderTargetLoop (env : Env) :
    Nat → Nat → Nat → State F → List Call → Except Fault (Bool × State F × List Call)
  | 0, _, _, s, c => .ok (true, s, c)
  | k + 1, n, ptr, s, c =>
    match s.m_swapChain with
    | none => .error .emptyHandle
    | some _ =>
      let s1 := { s with m_renderTargets := s.m_renderTargets.set n (env.buffers n) }
      match env.buffers n with
      | none => .ok (false, s1, c)
      | some b =>
        match s.m_pD3DDevice with
        | none => .error .emptyHandle
        | some _ =>
          renderTargetLoop env k (n + 1) ((ptr + s.m_rtvDescriptorSize) % 2 ^ 64) s1
            (c ++ [Call.createRenderTargetView b ptr])

/-- `CD3D_Device::CreateRenderTargets`. -/
def CreateRenderTargets (env : Env) (s : State F) :
    Except Fault (Bool × State F × List Call) :=
  match s.m_rtvHeap with
  | none => .error .emptyHandle
  | some _ => renderTargetLoop env m_frameCount 0 env.rtvHeapStart s []

/-- `CD3D_Device::CreateFence`: a `void` function, neither the `HRESULT` of
`ID3D12Device::CreateFence` nor the result of `CreateEvent` is looked at. -/
def CreateFence (env : Env) (s : State F) : Except Fault (State F) :=
  match s.m_pD3DDevice with
  | none => .error .emptyHandle
  | some _ =>
    .ok { s with m_fence := env.fence, m_fenceValue := 1, m_fenceEvent := env.fenceEvent }

/-- `CD3D_Device::SetDefaultRenderStates`. -/
def SetDefaultRenderStates (fl : FloatOps F) (s : State F) :
    Except Fault (State F × List Call) :=
  match s.m_pMode with
  | none => .error .nullPointer
  | some mode =>
    .ok ({ s with
            m_viewportData :=
              { TopLeftX := fl.zero
                TopLeftY := fl.zero
                Width := fl.ofUInt mode.Width
                Height := fl.ofUInt mode.Height
                MinDepth := fl.zero
                MaxDepth := fl.one }
            m_scissorRect :=
              { left := 0, top := 0, right := toLONG mode.Width,
                bottom := toLONG mode.Height } },
         [Call.debugLog "[D3DRender]Default render states set for DirectX 12."])

/-- The stages of `CreateDevice` that can report failure. -/
inductive Stage where
  | initializeD3D12
  | createCommandObjects
  | createSwapChain
  | createDescriptorHeaps
  | createRenderTargets
deriving DecidableEq

/-- The message `CreateDevice` logs when a stage reports failure. -/
def Stage.message : Stage → String
  | .initializeD3D12 => "[D3DRender]Error: DirectX 12 initialization failed."
  | .createCommandObjects => "[D3DRender]Error: Command objects creation failed."
  | .createSwapChain => "[D3DRender]Error: Swap chain creation failed."
  | .createDescriptorHeaps => "[D3DRender]Error: Descriptor heaps creation failed."
  | .createRenderTargets => "[D3DRender]Error: Render targets creation failed."

/-- The five stages in the order `CreateDevice` runs them. -/
def Stage.all : List Stage :=
  [.initializeD3D12, .createCommandObjects, .createSwapChain, .createDescriptorHeaps,
   .createRenderTargets]

/-- Running one stage: the member function of that name. -/
def Stage.run (k : Stage) (env : Env) (s : State F) :
    Except Fault (Bool × State F × List Call) :=
  match k with
  | .initializeD3D12 => .ok ((InitializeD3D12 env s).1, (InitializeD3D12 env s).2, [])
  | .createCommandObjects => CreateCommandObjects env s
  | .createSwapChain => CreateSwapChain env s
  | .createDescriptorHeaps => CreateDescriptorHeaps env s
  | .createRenderTargets => CreateRenderTargets env s

/-- Running stages one after the other up to the first that fails, that is, returns false:
the result names that stage and gives the state it left, or is `none` with the state after
the last stage when every stage succeeded. This is what "stage `k` fails" means below; it
is written from the stage functions alone, not from `CreateDevice`. -/
def runStages (env : Env) : List Stage → State F → Except Fault (Option Stage × State F)
  | [], s => .ok (none, s)
  | k :: ks, s =>
    match k.run env s with
    | .error e => .error e
    | .ok (false, s1, _) => .ok (some k, s1)
    | .ok (true, s1, _) => runStages env ks s1

/-- Lines 13 to 52 of `CD3D_Device::CreateDevice`: what runs after the teardown of line 11,
from the state `s0` the teardown left and the calls `c0` it issued. -/
def CreateDevice.rebuild (fl : FloatOps F) (env : Env) (pAdapter pDevice : Option Nat)
    (pMode : Option D3DModeInfo) (s0 : State F) (c0 : List Call) :
    Except Fault (Bool × State F × List Call) :=
  let s1 := { s0 with m_pAdapter := pAdapter, m_pDevice := pDevice, m_pMode := pMode }
  match InitializeD3D12 env s1 with
  | (false, s2) =>
    .ok (false, s2, c0 ++ [Call.debugLog Stage.initializeD3D12.message])
  | (true, s2) =>
    match CreateCommandObjects env s2 with
    | .error e => .error e
    | .ok (false, s3, c3) =>
      .ok (false, s3, c0 ++ c3 ++ [Call.debugLog Stage.createCommandObjects.message])
    | .ok (true, s3, c3) =>
      match CreateSwapChain env s3 with
      | .error e => .error e
      | .ok (false, s4, c4) =>
        .ok (false, s4, c0 ++ c3 ++ c4 ++ [Call.debugLog Stage.createSwapChain.message])
      | .ok (true, s4, c4) =>
        match CreateDescriptorHeaps env s4 with
        | .error e => .error e
        | .ok (false, s5, c5) =>
          .ok (false, s5,
            c0 ++ c3 ++ c4 ++ c5 ++ [Call.debugLog Stage.createDescriptorHeaps.message])
        | .ok (true, s5, c5) =>
          match CreateRenderTargets env s5 with
          | .error e => .error e
          | .ok (false, s6, c6) =>
            .ok (false, s6,
              c0 ++ c3 ++ c4 ++ c5 ++ c6 ++
                [Call.debugLog Stage.createRenderTargets.message])
          | .ok (true, s6, c6) =>
            match CreateFence env s6 with
            | .error e => .error e
            | .ok s7 =>
              match SetDefaultRenderStates fl s7 with
              | .error e => .error e
              | .ok (s8, c8) =>
                .ok (true, s8,
                  c0 ++ c3 ++ c4 ++ c5 ++ c6 ++ c8 ++
                    [Call.debugLog "[D3DRender]DirectX 12 device created successfully."])

/-- `CD3D_Device::CreateDevice`: the teardown of line 11, then the rest. -/
def CreateDevice (fl : FloatOps F) (env : Env) (pAdapter pDevice : Option Nat)
    (pMode : Option D3DModeInfo) (s : State F) :
    Except Fault (Bool × State F × List Call) :=
  match FreeDevice env s with
  | .error e => .error e
  | .ok (s0, c0) => CreateDevice.rebuild fl env pAdapter pDevice pMode s0 c0

/-- The barrier on `m_renderTargets[m_frameIndex].Get()`. The index is not checked: inside
the array the barrier names the slot it reads, outside it names whatever lies past the
array. -/
def barrierCall (s : State F) (toRenderTarget : Bool) : Call :=
  match s.m_renderTargets.get s.m_frameIndex with
  | some rt => Call.resourceBarrier rt toRenderTarget
  | none => Call.resourceBarrierPastArray s.m_frameIndex toRenderTarget

/-- `CD3D_Device::Start3D` (a static member working on the global `g_Device`). The
descriptor offset `m_frameIndex * m_rtvDescriptorSize` is a `UINT` product. -/
def Start3D (env : Env) (s : State F) : Except Fault (Bool × State F × List Call) :=
  if s.m_bIn3D = true ∨ s.m_pD3DDevice = none then .ok (false, s, [])
  else
    match s.m_commandAllocator with
    | none => .error .emptyHandle
    | some _ =>
      match s.m_commandList with
      | none => .error .emptyHandle
      | some _ =>
        match s.m_rtvHeap with
        | none => .error .emptyHandle
        | some _ =>
          let ptr :=
            (env.rtvHeapStart + (s.m_frameIndex * s.m_rtvDescriptorSize) % 2 ^ 32) % 2 ^ 64
          .ok (true, { s with m_bIn3D := true },
            [Call.allocatorReset, Call.listReset, Call.rsSetViewports,
             Call.rsSetScissorRects, barrierCall s true,
             Call.omSetRenderTargets ptr, Call.clearRenderTargetView ptr])

/-- `CD3D_Device::End3D` (a static member working on the global `g_Device`). -/
def End3D (s : State F) : Except Fault (Bool × State F × List Call) :=
  if s.m_bIn3D = false ∨ s.m_pD3DDevice = none then .ok (false, s, [])
  else
    let s1 := { s with m_bIn3D := false }
    match s1.m_commandList with
    | none => .error .emptyHandle
    | some l =>
      match s1.m_commandQueue with
      | none => .error .emptyHandle
      | some _ =>
        .ok (true, s1, [barrierCall s1 false, Call.listClose, Call.executeCommandLists l])

/-- `CD3D_Device::IsIn3D`. -/
def IsIn3D (s : State F) : Bool := s.m_bIn3D

/-- `CD3D_Device::Present`. -/
def Present (env : Env) (s : State F) : Except Fault (State F × List Call) :=
  match s.m_swapChain with
  | none => .error .emptyHandle
  | some _ =>
    match WaitForGPU env s with
    | .error e => .error e
    | .ok (s1, c1) =>
      .ok ({ s1 with m_frameIndex := env.backBufferIndex }, Call.swapChainPresent 1 :: c1)

/-- `CD3D_Device::SetMode`. -/
def SetMode (pMode : Option D3DModeInfo) (s : State F) : Bool × State F :=
  (true, { s with m_pMode := pMode })

/-- `CD3D_Device::SetupViewport`. The arguments are `uint32`, so `iRight - iLeft` is the
difference modulo `2 ^ 32`; the cached members are `LONG`, compared as unsigned and
assigned as signed. -/
def SetupViewport (fl : FloatOps F) (iLeft iRight iTop iBottom : Nat) (fMinZ fMaxZ : F)
    (s : State F) : State F :=
  if toULONG s.m_rcViewport.left = iLeft ∧ toULONG s.m_rcViewport.right = iRight ∧
      toULONG s.m_rcViewport.top = iTop ∧ toULONG s.m_rcViewport.bottom = iBottom then s
  else
    { s with
      m_rcViewport :=
        { left := toLONG iLeft, right := toLONG iRight, top := toLONG iTop,
          bottom := toLONG iBottom }
      m_viewportData :=
        { TopLeftX := fl.ofUInt iLeft
          TopLeftY := fl.ofUInt iTop
          Width := fl.ofUInt ((iRight + 2 ^ 32 - iLeft) % 2 ^ 32)
          Height := fl.ofUInt ((iBottom + 2 ^ 32 - iTop) % 2 ^ 32)
          MinDepth := fMinZ
          MaxDepth := fMaxZ }
      m_scissorRect :=
        { left := toLONG iLeft, top := toLONG iTop, right := toLONG iRight,
          bottom := toLONG iBottom } }

/-- `SetupViewport` called with four arguments: the header defaults the depth range to
`0.0f` and `1.0f`. -/
def SetupViewportDefault (fl : FloatOps F) (iLeft iRight iTop iBottom : Nat)
    (s : State F) : State F :=
  SetupViewport fl iLeft iRight iTop iBottom fl.zero fl.one s

/-- The cleared state: every member `ResetDeviceVars` assigns has the value it assigns. -/
def Cleared (s : State F) : Prop :=
  s.m_pD3DDevice = none ∧ s.m_commandQueue = none ∧ s.m_commandList = none ∧
  s.m_commandAllocator = none ∧ s.m_swapChain = none ∧ s.m_factory = none ∧
  s.m_rtvHeap = none ∧ s.m_dsvHeap = none ∧ s.m_fence = none ∧
  s.m_renderTargets = { slot0 := none, slot1 := none } ∧ s.m_depthStencil = none ∧
  s.m_pAdapter = none ∧ s.m_pDevice = none ∧ s.m_pMode = none ∧
  s.m_bWindowed = false ∧ s.m_bIn3D = false ∧ s.m_fenceEvent = none ∧
  s.m_fenceValue = 0 ∧ s.m_frameIndex = 0

instance (s : State F) : Decidable (Cleared s) := by
  unfold Cleared
  infer_instance

/-- The handles the stages before `k` obtain are all non-empty in `s`. -/
def heldBefore (k : Stage) (s : State F) : Prop :=
  match k with
  | .initializeD3D12 => True
  | .createCommandObjects => s.m_factory ≠ none ∧ s.m_pD3DDevice ≠ none
  | .createSwapChain =>
    s.m_factory ≠ none ∧ s.m_pD3DDevice ≠ none ∧ s.m_commandQueue ≠ none ∧
    s.m_commandAllocator ≠ none ∧ s.m_commandList ≠ none
  | .createDescriptorHeaps =>
    s.m_factory ≠ none ∧ s.m_pD3DDevice ≠ none ∧ s.m_commandQueue ≠ none ∧
    s.m_commandAllocator ≠ none ∧ s.m_commandList ≠ none ∧ s.m_swapChain ≠ none
  | .createRenderTargets =>
    s.m_factory ≠ none ∧ s.m_pD3DDevice ≠ none ∧ s.m_commandQueue ≠ none ∧
    s.m_commandAllocator ≠ none ∧ s.m_commandList ≠ none ∧ s.m_swapChain ≠ none ∧
    s.m_rtvHeap ≠ none ∧ s.m_dsvHeap ≠ none

instance (k : Stage) (s : State F) : Decidable (heldBefore k s) := by
  cases k <;> simp only [heldBefore] <;> infer_instance

/-- The handles the stages after `k` would obtain are all empty in `s`. -/
def emptyAfter (k : Stage) (s : State F) : Prop :=
  match k with
  | .initializeD3D12 =>
    s.m_commandQueue = none ∧ s.m_commandAllocator = none ∧ s.m_commandList = none ∧
    s.m_swapChain = none ∧ s.m_rtvHeap = none ∧ s.m_dsvHeap = none ∧
    s.m_renderTargets = { slot0 := none, slot1 := none }
  | .createCommandObjects =>
    s.m_swapChain = none ∧ s.m_rtvHeap = none ∧ s.m_dsvHeap = none ∧
    s.m_renderTargets = { slot0 := none, slot1 := none }
  | .createSwapChain =>
    s.m_rtvHeap = none ∧ s.m_dsvHeap = none ∧
    s.m_renderTargets = { slot0 := none, slot1 := none }
  | .createDescriptorHeaps => s.m_renderTargets = { slot0 := none, slot1 := none }
  | .createRenderTargets => True

instance (k : Stage) (s : State F) : Decidable (emptyAfter k s) := by
  cases k <;> simp only [emptyAfter] <;> infer_instance

/-- Every handle a created device needs is non-empty. -/
def AllHandlesLive (s : State F) : Prop :=
  s.m_factory ≠ none ∧ s.m_pD3DDevice ≠ none ∧ s.m_commandQueue ≠ none ∧
  s.m_commandAllocator ≠ none ∧ s.m_commandList ≠ none ∧ s.m_swapChain ≠ none ∧
  s.m_rtvHeap ≠ none ∧ s.m_dsvHeap ≠ none ∧ s.m_renderTargets.slot0 ≠ none ∧
  s.m_renderTargets.slot1 ≠ none ∧ s.m_fence ≠ none ∧ s.m_fenceEvent ≠ none

instance (s : State F) : Decidable (AllHandlesLive s) := by
  unfold AllHandlesLive
  infer_instance

/-- The relation between the members that every public operation keeps: a command list is
only held together with a queue, and a frame is only open with a device, a command list and
a back-buffer index inside the array. -/
def Coherent (s : State F) : Prop :=
  (s.m_commandList ≠ none → s.m_commandQueue ≠ none) ∧
  (s.m_bIn3D = true →
    s.m_pD3DDevice ≠ none ∧ s.m_commandList ≠ none ∧ s.m_frameIndex < m_frameCount)

instance (s : State F) : Decidable (Coherent s) := by
  unfold Coherent
  infer_instance

/-- The back-buffer index is inside `m_renderTargets`. The code never checks this; it holds
as long as the swap chain reports indices below `m_frameCount`. -/
def IndexInArray (s : State F) : Prop := s.m_frameIndex < m_frameCount

instance (s : State F) : Decidable (IndexInArray s) := by
  unfold IndexInArray
  infer_instance

/-- A call of one of the public operations, with its arguments and the environment it
runs in. -/
inductive Op (F : Type) where
  | createDevice (env : Env) (pAdapter pDevice : Option Nat) (pMode : Option D3DModeInfo)
  | setMode (pMode : Option D3DModeInfo)
  | freeDevice (env : Env)
  | reset
  | resetDeviceVars
  | freeAll (env : Env)
  | setupViewport (iLeft iRight iTop iBottom : Nat) (fMinZ fMaxZ : F)
  | start3D (env : Env)
  | end3D
  | present (env : Env)
  | waitForGPU (env : Env)

/-- Running one public operation: the value it returns (`none` for a `void` one), the next
state and the calls it issued. -/
def step (fl : FloatOps F) (op : Op F) (s : State F) :
    Except Fault (Option Bool × State F × List Call) :=
  match op with
  | .createDevice env a d m =>
    match CreateDevice fl env a d m s with
    | .error e => .error e
    | .ok (r, s1, c) => .ok (some r, s1, c)
  | .setMode m => .ok (some (SetMode m s).1, (SetMode m s).2, [])
  | .freeDevice env =>
    match FreeDevice env s with
    | .error e => .error e
    | .ok (s1, c) => .ok (none, s1, c)
  | .reset => .ok (none, Reset s, [])
  | .resetDeviceVars => .ok (none, ResetDeviceVars s, [])
  | .freeAll env =>
    match FreeAll env s with
    | .error e => .error e
    | .ok (s1, c) => .ok (none, s1, c)
  | .setupViewport l r t b zmin zmax => .ok (none, SetupViewport fl l r t b zmin zmax s, [])
  | .start3D env =>
    match Start3D env s with
    | .error e => .error e
    | .ok (r, s1, c) => .ok (some r, s1, c)
  | .end3D =>
    match End3D s with
    | .error e => .error e
    | .ok (r, s1, c) => .ok (some r, s1, c)
  | .present env =>
    match Present env s with
    | .error e => .error e
    | .ok (s1, c) => .ok (none, s1, c)
  | .waitForGPU env =>
    match WaitForGPU env s with
    | .error e => .error e
    | .ok (s1, c) => .ok (none, s1, c)

/-- The operations after which no frame can be open: `End3D`, the teardown operations and
`CreateDevice`. -/
def Op.endsFrame : Op F → Bool
  | .end3D => true
  | .freeDevice _ => true
  | .reset => true
  | .resetDeviceVars => true
  | .freeAll _ => true
  | .createDevice _ _ _ _ => true
  | _ => false

/-- The swap chain keeps its contract: the index it reports is below `m_frameCount`. -/
def Op.inContract : Op F → Prop
  | .createDevice env _ _ _ => env.backBufferIndex < m_frameCount
  | .present env => env.backBufferIndex < m_frameCount
  | _ => True

/-- A history of completed public operations, each with the value it returned, leading from
the first state to the last. -/
inductive Run (fl : FloatOps F) : State F → List (Op F × Option Bool) → State F → Prop where
  | start (s : State F) : Run fl s [] s
  | next {s0 s s1 : State F} {evs : List (Op F × Option Bool)} {op : Op F}
      {r : Option Bool} {c : List Call} :
      Run fl s0 evs s → step fl op s = .ok (r, s1, c) → Run fl s0 (evs ++ [(op, r)]) s1

/-- The history has a `Start3D` that returned true with no `End3D`, teardown or
`CreateDevice` after it. -/
def OpenedByStart3D (evs : List (Op F × Option Bool)) : Prop :=
  ∃ pre env post, evs = pre ++ (Op.start3D env, some true) :: post ∧
    ∀ e ∈ post, e.1.endsFrame = false

end Operations

/-! ### Concrete data for evaluation -/

/-- A carrier for `float` in concrete evaluations: the float that holds an integer is that
integer. -/
def exactInt : FloatOps Int := { ofInteger := fun n => (n : Int), zero := 0, one := 1 }

/-- A mode of 800 by 600. -/
def mode800 : D3DModeInfo := { Width := 800, Height := 600 }

/-- An environment in which every creation succeeds. -/
def envOk : Env :=
  { factory := some 1
    adapters := [{ software := true, device := some 90 }, { software := false, device := some 2 }]
    commandQueue := some 3
    commandAllocator := some 4
    commandList := some 5
    swapChain1 := some 6
    swapChain3 := some 7
    backBufferIndex := 0
    rtvHeap := some 8
    dsvHeap := some 9
    rtvIncrement := 32
    dsvIncrement := 8
    rtvHeapStart := 4096
    buffers := fun n => some (10 + n)
    fence := some 12
    fenceEvent := some 13
    completedValue := 0 }

/-- A device as a successful `CreateDevice` in `envOk` leaves it. -/
def liveDevice : State Int :=
  { m_pD3DDevice := some 2
    m_commandQueue := some 3
    m_commandList := some 5
    m_factory := some 1
    m_swapChain := some 7
    m_commandAllocator := some 4
    m_rtvHeap := some 8
    m_dsvHeap := some 9
    m_fence := some 12
    m_fenceEvent := some 13
    m_fenceValue := 1
    m_renderTargets := { slot0 := some 10, slot1 := some 11 }
    m_depthStencil := none
    m_frameIndex := 0
    m_rtvDescriptorSize := 32
    m_dsvDescriptorSize := 8
    m_pAdapter := some 100
    m_pDevice := some 101
    m_pMode := some mode800
    m_bWindowed := false
    m_rcViewport := { left := 0, top := 0, right := 0, bottom := 0 }
    m_viewportData :=
      { TopLeftX := 0, TopLeftY := 0, Width := 800, Height := 600, MinDepth := 0, MaxDepth := 1 }
    m_scissorRect := { left := 0, top := 0, right := 800, bottom := 600 }
    m_bIn3D := false }

/-- The raw memory a constructor call finds: here all zero, as for the global `g_Device`. -/
def zeroMemory : State Int :=
  { m_pD3DDevice := none
    m_commandQueue := none
    m_commandList := none
    m_factory := none
    m_swapChain := none
    m_commandAllocator := none
    m_rtvHeap := none
    m_dsvHeap := none
    m_fence := none
    m_fenceEvent := none
    m_fenceValue := 0
    m_renderTargets := { slot0 := none, slot1 := none }
    m_depthStencil := none
    m_frameIndex := 0
    m_rtvDescriptorSize := 0
    m_dsvDescriptorSize := 0
    m_pAdapter := none
    m_pDevice := none
    m_pMode := none
    m_bWindowed := false
    m_rcViewport := { left := 0, top := 0, right := 0, bottom := 0 }
    m_viewportData :=
      { TopLeftX := 0, TopLeftY := 0, Width := 0, Height := 0, MinDepth := 0, MaxDepth := 0 }
    m_scissorRect := { left := 0, top := 0, right := 0, bottom := 0 }
    m_bIn3D := false }

/-- An environment in which the command queue cannot be created. -/
def envNoQueue : Env := { envOk with commandQueue := none }

/-- An environment in which the swap chain cannot be created. -/
def envNoSwapChain : Env := { envOk with swapChain1 := none }

/-- The state `CreateDevice` leaves from `liveDevice` when queue creation fails: factory and
device are held, nothing else is. -/
def deviceOnly : State Int :=
  { liveDevice with
    m_commandQueue := none
    m_commandList := none
    m_swapChain := none
    m_commandAllocator := none
    m_rtvHeap := none
    m_dsvHeap := none
    m_fence := none
    m_fenceEvent := none
    m_fenceValue := 0
    m_renderTargets := { slot0 := none, slot1 := none } }

/-- The state `CreateDevice` leaves from `liveDevice` when swap chain creation fails. -/
def noSwapChain : State Int :=
  { liveDevice with
    m_swapChain := none
    m_rtvHeap := none
    m_dsvHeap := none
    m_fence := none
    m_fenceEvent := none
    m_fenceValue := 0
    m_renderTargets := { slot0 := none, slot1 := none } }

/-- A live device with a frame open. -/
def openFrame : State Int := { liveDevice with m_bIn3D := true }

/-- A live device whose 64-bit fence counter holds its largest value. -/
def lastFenceValue : State Int := { liveDevice with m_fenceValue := 2 ^ 64 - 1 }

/-- An environment in which everything succeeds except the creation of the fence and of
its wait event. -/
def envNoFence : Env := { envOk with fence := none, fenceEvent := none }

/-- The state a `CreateDevice` that returns true leaves from `liveDevice` in `envNoFence`. -/
def noFence : State Int := { liveDevice with m_fence := none, m_fenceEvent := none }

/-- A live device on which `SetupViewport(0, 400, 0, 300)` has been called. -/
def smallViewport : State Int := SetupViewportDefault exactInt 0 400 0 300 liveDevice

section Teardown

variable {F : Type}

/-- `ResetDeviceVars` leaves the cleared state. -/
theorem ResetDeviceVars_cleared (s : State F) : Cleared (ResetDeviceVars s) := by
  simp [Cleared, ResetDeviceVars, m_frameCount, List.range, List.range.loop,
    RenderTargets.set]

/-- The cleared states are exactly the states `ResetDeviceVars` does not change. -/
theorem Cleared_iff_fixed (s : State F) : Cleared s ↔ ResetDeviceVars s = s := by
  constructor
  · intro h
    obtain ⟨h1, h2, h3, h4, h5, h6, h7, h8, h9, h10, h11, h12, h13, h14, h15, h16, h17,
      h18, h19⟩ := h
    cases s
    simp_all [ResetDeviceVars, m_frameCount, List.range, List.range.loop, RenderTargets.set]
  · intro h
    rw [← h]
    exact ResetDeviceVars_cleared s

/-- The constructed state is cleared and has a zero cached rectangle. -/
theorem construct_cleared (raw : State F) :
    Cleared (construct raw) ∧
      (construct raw).m_rcViewport = { left := 0, top := 0, right := 0, bottom := 0 } := by
  simp [Cleared, construct, Reset, ResetDeviceVars, m_frameCount, List.range,
    List.range.loop, RenderTargets.set]

/-- `WaitForGPU` completes exactly when the queue and the fence are both non-empty. -/
theorem WaitForGPU_completes_iff (env : Env) (s : State F) :
    (∃ r, WaitForGPU env s = .ok r) ↔ s.m_commandQueue ≠ none ∧ s.m_fence ≠ none := by
  unfold WaitForGPU
  cases hq : s.m_commandQueue <;> cases hf : s.m_fence <;> simp
  split <;> simp

/-- When `WaitForGPU` does not complete it is because it went through an empty handle. -/
theorem WaitForGPU_fault (env : Env) (s : State F)
    (h : s.m_commandQueue = none ∨ s.m_fence = none) :
    WaitForGPU env s = .error .emptyHandle := by
  unfold WaitForGPU
  cases hq : s.m_commandQueue <;> cases hf : s.m_fence <;> simp_all

/-- What `WaitForGPU` does when it completes: the counter goes up by one modulo `2 ^ 64`,
the value signalled is the counter before the call, nothing else changes. -/
theorem WaitForGPU_ok (env : Env) (s : State F) (hq : s.m_commandQueue ≠ none)
    (hf : s.m_fence ≠ none) :
    ∃ c, WaitForGPU env s
        = .ok ({ s with m_fenceValue := (s.m_fenceValue + 1) % 2 ^ 64 },
            Call.signal s.m_fence s.m_fenceValue :: c) ∧
      ∀ x ∈ c, ∀ f v, x ≠ Call.signal f v := by
  unfold WaitForGPU
  cases hq1 : s.m_commandQueue with
  | none => exact absurd hq1 hq
  | some q =>
    cases hf1 : s.m_fence with
    | none => exact absurd hf1 hf
    | some f =>
      by_cases hc : env.completedValue < s.m_fenceValue
      · exact ⟨[Call.setEventOnCompletion s.m_fenceValue s.m_fenceEvent,
            Call.waitForSingleObject s.m_fenceEvent], by simp [hc], by simp⟩
      · exact ⟨[], by simp [hc], by simp⟩

/-- `FreeDevice` completes exactly when the queue and the fence are both non-empty. -/
theorem FreeDevice_completes_iff (env : Env) (s : State F) :
    (∃ r, FreeDevice env s = .ok r) ↔ s.m_commandQueue ≠ none ∧ s.m_fence ≠ none := by
  rw [← WaitForGPU_completes_iff env s]
  unfold FreeDevice
  cases h : WaitForGPU env s with
  | error e => simp
  | ok r => obtain ⟨s1, c1⟩ := r; simp

/-- The state `FreeDevice` leaves when it completes. -/
theorem FreeDevice_ok (env : Env) (s : State F) (hq : s.m_commandQueue ≠ none)
    (hf : s.m_fence ≠ none) :
    ∃ c, FreeDevice env s = .ok (ResetDeviceVars s, c) ∧ ∀ x ∈ c, ∀ m, x ≠ Call.debugLog m := by
  obtain ⟨c, hc, _⟩ := WaitForGPU_ok env s hq hf
  unfold FreeDevice
  rw [hc]
  refine ⟨_, rfl, ?_⟩
  unfold WaitForGPU at hc
  cases hq1 : s.m_commandQueue with
  | none => exact absurd hq1 hq
  | some q =>
    cases hf1 : s.m_fence with
    | none => exact absurd hf1 hf
    | some f =>
      simp only [hq1, hf1] at hc
      by_cases hlt : env.completedValue < s.m_fenceValue
      · simp [hlt] at hc
        subst hc
        cases s.m_fenceEvent <;> simp
      · simp [hlt] at hc
        subst hc
        cases s.m_fenceEvent <;> simp

/-- C2, evaluated on the code: `FreeDevice` calls `WaitForGPU` unconditionally, and
`WaitForGPU` goes through the command queue and the fence. So on a freshly constructed
aggregate (every handle empty) `WaitForGPU`, `FreeDevice`, `FreeAll` and the teardown at the
start of `CreateDevice` all stop at an empty handle instead of running to completion; and
the same holds in every state whose queue or fence is empty, such as the state right after
a completed `FreeDevice` or `FreeAll`. -/
theorem FreeDevice_constructed_faults (fl : FloatOps F) (env : Env) (raw : State F)
    (a d : Option Nat) (m : Option D3DModeInfo) :
    (WaitForGPU env (construct raw) = .error .emptyHandle ∧
      FreeDevice env (construct raw) = .error .emptyHandle ∧
      FreeAll env (construct raw) = .error .emptyHandle ∧
      CreateDevice fl env a d m (construct raw) = .error .emptyHandle) ∧
    (∀ s : State F, FreeDevice env (ResetDeviceVars s) = .error .emptyHandle ∧
      FreeDevice env (Reset s) = .error .emptyHandle) := by
  have key : ∀ s : State F, s.m_commandQueue = none →
      WaitForGPU env s = .error .emptyHandle ∧ FreeDevice env s = .error .emptyHandle ∧
      FreeAll env s = .error .emptyHandle ∧
      CreateDevice fl env a d m s = .error .emptyHandle := by
    intro s hs
    have h : WaitForGPU env s = .error .emptyHandle := WaitForGPU_fault env s (Or.inl hs)
    simp [FreeDevice, FreeAll, CreateDevice, h]
  refine ⟨key _ (construct_cleared raw).1.2.1, fun s => ⟨(key _ rfl).2.1, (key _ rfl).2.1⟩⟩

end Teardown

section Viewport

variable {F : Type}

/-- A `uint32` stored in a `LONG` and converted back for a comparison is the value it was. -/
theorem toULONG_toLONG (n : Nat) : toULONG (toLONG n) = n % 2 ^ 32 := by
  unfold toULONG toLONG
  split <;> omega

/-- Below `2 ^ 31` a `uint32` stored in a `LONG` keeps its value. -/
theorem toLONG_of_lt (n : Nat) (h : n < 2 ^ 31) : toLONG n = (n : Int) := by
  unfold toLONG
  have h1 : n % 2 ^ 32 = n := Nat.mod_eq_of_lt (by omega)
  rw [h1, if_pos h]

/-- From `2 ^ 31` on a `uint32` stored in a `LONG` becomes negative. -/
theorem toLONG_of_ge (n : Nat) (h1 : 2 ^ 31 ≤ n) (h2 : n < 2 ^ 32) :
    toLONG n = (n : Int) - 2 ^ 32 := by
  unfold toLONG
  have h3 : n % 2 ^ 32 = n := Nat.mod_eq_of_lt h2
  rw [h3, if_neg (by omega)]

/-- A `LONG` that holds a `uint32` value compares equal to it. -/
theorem toULONG_natCast (n : Nat) (h : n < 2 ^ 32) : toULONG (n : Int) = n := by
  unfold toULONG
  omega

/-- For a `LONG` in range and a value below `2 ^ 31`, the unsigned comparison of the code
holds exactly when the two are equal. -/
theorem toULONG_eq_iff (i : Int) (n : Nat) (hi : -(2 ^ 31) ≤ i ∧ i < 2 ^ 31)
    (hn : n < 2 ^ 31) : toULONG i = n ↔ i = (n : Int) := by
  unfold toULONG
  omega

/-- Single precision holds every integer up to `2 ^ 24` exactly. -/
theorem roundToSingle_exact (n : Nat) (h : n ≤ 2 ^ 24) : roundToSingle n = n := by
  rcases Nat.lt_or_ge n (2 ^ 24) with hlt | hge
  · have he : excessBits 8 n = 0 := by
      unfold excessBits
      rw [if_pos hlt]
    unfold roundToSingle
    simp [he, Nat.mod_one]
  · have hn : n = 2 ^ 24 := by omega
    subst hn
    decide

/-- C6: `SetupViewport` called with the coordinates of the cached rectangle changes no
member of the aggregate, whatever the depth arguments are; in particular the cached
rectangle, the viewport description and the scissor rectangle are as before. This holds
for the four cached members passed as `uint32` arguments, and so for any four `uint32`
arguments equal to the cached members. -/
theorem SetupViewport_cached_rect_unchanged (fl : FloatOps F) (s : State F)
    (fMinZ fMaxZ : F) :
    SetupViewport fl (toULONG s.m_rcViewport.left) (toULONG s.m_rcViewport.right)
      (toULONG s.m_rcViewport.top) (toULONG s.m_rcViewport.bottom) fMinZ fMaxZ s = s ∧
    ∀ iLeft iRight iTop iBottom : Nat,
      iLeft < 2 ^ 32 → iRight < 2 ^ 32 → iTop < 2 ^ 32 → iBottom < 2 ^ 32 →
      s.m_rcViewport = { left := iLeft, top := iTop, right := iRight, bottom := iBottom } →
      SetupViewport fl iLeft iRight iTop iBottom fMinZ fMaxZ s = s := by
  constructor
  · simp [SetupViewport]
  · intro l r t b hl hr ht hb hrc
    have hcond : toULONG s.m_rcViewport.left = l ∧ toULONG s.m_rcViewport.right = r ∧
        toULONG s.m_rcViewport.top = t ∧ toULONG s.m_rcViewport.bottom = b := by
      rw [hrc]
      exact ⟨toULONG_natCast l hl, toULONG_natCast r hr, toULONG_natCast t ht,
        toULONG_natCast b hb⟩
    unfold SetupViewport
    rw [if_pos hcond]

/-- The witness of C6: with the rectangle 0/0/400/300 cached, `SetupViewport(0, 400, 0, 300)`
with any depth range changes nothing. -/
theorem SetupViewport_cached_rect_unchanged_witness :
    SetupViewport exactInt 0 400 0 300 7 9 smallViewport = smallViewport :=
  (SetupViewport_cached_rect_unchanged exactInt smallViewport 7 9).2 0 400 0 300
    (by decide) (by decide) (by decide) (by decide) rfl

/-- C7 as the code has it: for `left <= right < 2 ^ 31` and `top <= bottom < 2 ^ 31` (the
values a `LONG` holds as they are) that differ from the cached rectangle, `SetupViewport`
stores the rectangle, makes the scissor rectangle `left/top/right/bottom`, makes the
viewport description the `float` conversions of `left`, `top`, `right - left` and
`bottom - top` with the given depth range, and changes no other member; with the depth
arguments defaulted the range is `0.0f` to `1.0f`. When moreover `left`, `top`,
`right - left` and `bottom - top` are at most `2 ^ 24` (the integers a `float` holds as
they are) the description has exactly origin `(left, top)`, width `right - left` and height
`bottom - top`. -/
theorem SetupViewport_new_rect (fl : FloatOps F) (s : State F)
    (iLeft iRight iTop iBottom : Nat) (fMinZ fMaxZ : F)
    (hlr : iLeft ≤ iRight) (htb : iTop ≤ iBottom)
    (hr : iRight < 2 ^ 31) (hb : iBottom < 2 ^ 31)
    (hin : s.m_rcViewport.InRange)
    (hne : s.m_rcViewport ≠ { left := iLeft, top := iTop, right := iRight, bottom := iBottom }) :
    SetupViewport fl iLeft iRight iTop iBottom fMinZ fMaxZ s =
      { s with
        m_rcViewport := { left := iLeft, top := iTop, right := iRight, bottom := iBottom }
        m_viewportData :=
          { TopLeftX := fl.ofUInt iLeft
            TopLeftY := fl.ofUInt iTop
            Width := fl.ofUInt (iRight - iLeft)
            Height := fl.ofUInt (iBottom - iTop)
            MinDepth := fMinZ
            MaxDepth := fMaxZ }
        m_scissorRect := { left := iLeft, top := iTop, right := iRight, bottom := iBottom } } ∧
    (iLeft ≤ 2 ^ 24 → iTop ≤ 2 ^ 24 → iRight - iLeft ≤ 2 ^ 24 → iBottom - iTop ≤ 2 ^ 24 →
      (SetupViewport fl iLeft iRight iTop iBottom fMinZ fMaxZ s).m_viewportData =
        { TopLeftX := fl.ofInteger iLeft
          TopLeftY := fl.ofInteger iTop
          Width := fl.ofInteger (iRight - iLeft)
          Height := fl.ofInteger (iBottom - iTop)
          MinDepth := fMinZ
          MaxDepth := fMaxZ }) ∧
    (SetupViewportDefault fl iLeft iRight iTop iBottom s).m_viewportData.MinDepth = fl.zero ∧
    (SetupViewportDefault fl iLeft iRight iTop iBottom s).m_viewportData.MaxDepth = fl.one := by
  have hl : iLeft < 2 ^ 31 := by omega
  have ht : iTop < 2 ^ 31 := by omega
  obtain ⟨i1, i2, i3, i4⟩ := hin
  have hcond : ¬ (toULONG s.m_rcViewport.left = iLeft ∧ toULONG s.m_rcViewport.right = iRight ∧
      toULONG s.m_rcViewport.top = iTop ∧ toULONG s.m_rcViewport.bottom = iBottom) := by
    rintro ⟨h1, h2, h3, h4⟩
    rw [toULONG_eq_iff _ _ i1 hl] at h1
    rw [toULONG_eq_iff _ _ i3 hr] at h2
    rw [toULONG_eq_iff _ _ i2 ht] at h3
    rw [toULONG_eq_iff _ _ i4 hb] at h4
    apply hne
    cases hv : s.m_rcViewport
    simp_all
  have hw : (iRight + 2 ^ 32 - iLeft) % 2 ^ 32 = iRight - iLeft := by omega
  have hh : (iBottom + 2 ^ 32 - iTop) % 2 ^ 32 = iBottom - iTop := by omega
  have e1 := toLONG_of_lt iLeft hl
  have e2 := toLONG_of_lt iRight hr
  have e3 := toLONG_of_lt iTop ht
  have e4 := toLONG_of_lt iBottom hb
  refine ⟨?_, ?_, ?_, ?_⟩
  · unfold SetupViewport
    rw [if_neg hcond, hw, hh, e1, e2, e3, e4]
  · intro hl24 ht24 hw24 hh24
    unfold SetupViewport
    rw [if_neg hcond, hw, hh]
    unfold FloatOps.ofUInt
    rw [roundToSingle_exact iLeft hl24, roundToSingle_exact iTop ht24,
      roundToSingle_exact (iRight - iLeft) hw24, roundToSingle_exact (iBottom - iTop) hh24]
  · unfold SetupViewportDefault SetupViewport
    rw [if_neg hcond]
  · unfold SetupViewportDefault SetupViewport
    rw [if_neg hcond]

/-- The witness of C7: on the constructed aggregate, whose rectangle and viewport are all
zero, `SetupViewport(0, 800, 0, 600)` gives width 800, height 600, depth range 0 to 1 and
the scissor rectangle 0/0/800/600. -/
theorem SetupViewport_new_rect_witness :
    (SetupViewportDefault exactInt 0 800 0 600 (construct zeroMemory)).m_viewportData
        = { TopLeftX := 0, TopLeftY := 0, Width := 800, Height := 600,
            MinDepth := 0, MaxDepth := 1 } ∧
      (SetupViewportDefault exactInt 0 800 0 600 (construct zeroMemory)).m_scissorRect
        = { left := 0, top := 0, right := 800, bottom := 600 } ∧
      (SetupViewportDefault exactInt 0 800 0 600 (construct zeroMemory)).m_rcViewport
        = { left := 0, top := 0, right := 800, bottom := 600 } := by
  have h := SetupViewport_new_rect exactInt (construct zeroMemory) 0 800 0 600 exactInt.zero
    exactInt.one (by decide) (by decide) (by decide) (by decide) (by decide) (by decide)
  have h1 := h.1
  have h2 := h.2.1 (by decide) (by decide) (by decide) (by decide)
  simp only [SetupViewportDefault]
  refine ⟨?_, ?_, ?_⟩
  · rw [h2]
    rfl
  · rw [h1]
    rfl
  · rw [h1]
    rfl

/-- C7 as stated fails outside those ranges. With `right = 2 ^ 31` (a 32-bit value, above
`left = 0` and different from the cached zero rectangle) the cached and the scissor `right`
members hold `- 2 ^ 31`, not `right`. With `right - left = 2 ^ 24 + 1` the width is the
float `2 ^ 24`, not `right - left`. -/
theorem SetupViewport_new_rect_counterexample :
    ((SetupViewportDefault exactInt 0 2147483648 0 600 (construct zeroMemory)).m_rcViewport
        = { left := 0, top := 0, right := -2147483648, bottom := 600 } ∧
      (SetupViewportDefault exactInt 0 2147483648 0 600 (construct zeroMemory)).m_scissorRect
        = { left := 0, top := 0, right := -2147483648, bottom := 600 } ∧
      (SetupViewportDefault exactInt 0 2147483648 0 600 (construct zeroMemory)).m_rcViewport
        ≠ { left := 0, top := 0, right := 2147483648, bottom := 600 }) ∧
    ((SetupViewportDefault exactInt 0 16777217 0 600 (construct zeroMemory)).m_viewportData.Width
        = exactInt.ofInteger 16777216 ∧
      (SetupViewportDefault exactInt 0 16777217 0 600 (construct zeroMemory)).m_viewportData.Width
        ≠ exactInt.ofInteger (16777217 - 0)) := by
  refine ⟨⟨by decide, by decide, by decide⟩, by decide, by decide⟩

end Viewport

section Frame

variable {F : Type}

/-- `Start3D` returns true exactly in the states of this description, and then only sets
the frame-open flag. -/
theorem Start3D_true_iff (env : Env) (s s1 : State F) (c : List Call) :
    Start3D env s = .ok (true, s1, c) ↔
      (s.m_bIn3D = false ∧ s.m_pD3DDevice ≠ none ∧ s.m_commandAllocator ≠ none ∧
        s.m_commandList ≠ none ∧ s.m_rtvHeap ≠ none) ∧
      s1 = { s with m_bIn3D := true } ∧
      c = [Call.allocatorReset, Call.listReset, Call.rsSetViewports,
           Call.rsSetScissorRects, barrierCall s true,
           Call.omSetRenderTargets
             ((env.rtvHeapStart + (s.m_frameIndex * s.m_rtvDescriptorSize) % 2 ^ 32)
               % 2 ^ 64),
           Call.clearRenderTargetView
             ((env.rtvHeapStart + (s.m_frameIndex * s.m_rtvDescriptorSize) % 2 ^ 32)
               % 2 ^ 64)] := by
  unfold Start3D
  by_cases hg : s.m_bIn3D = true ∨ s.m_pD3DDevice = none
  · rw [if_pos hg]
    simp only [Except.ok.injEq, Prod.mk.injEq, Bool.false_eq_true, false_and, false_iff]
    rintro ⟨⟨h1, h2, -⟩, -⟩
    rcases hg with hg | hg
    · simp [h1] at hg
    · exact h2 hg
  · rw [if_neg hg]
    have h1 : s.m_bIn3D = false := by
      cases hb : s.m_bIn3D
      · rfl
      · exact absurd (Or.inl hb) hg
    have h2 : s.m_pD3DDevice ≠ none := fun h => hg (Or.inr h)
    cases ha : s.m_commandAllocator with
    | none => simp
    | some a =>
      cases hl : s.m_commandList with
      | none => simp
      | some l =>
        cases hh : s.m_rtvHeap with
        | none => simp
        | some hp =>
          simp only [Except.ok.injEq, Prod.mk.injEq, true_and]
          constructor
          · rintro ⟨rfl, rfl⟩
            exact ⟨⟨h1, h2, by simp, by simp, by simp⟩, rfl, rfl⟩
          · rintro ⟨-, rfl, rfl⟩
            exact ⟨rfl, rfl⟩

/-- `Start3D` returns false exactly when a frame is open or the device handle is empty, and
then changes nothing and issues no call. -/
theorem Start3D_false_iff (env : Env) (s s1 : State F) (c : List Call) :
    Start3D env s = .ok (false, s1, c) ↔
      (s.m_bIn3D = true ∨ s.m_pD3DDevice = none) ∧ s1 = s ∧ c = [] := by
  unfold Start3D
  by_cases hg : s.m_bIn3D = true ∨ s.m_pD3DDevice = none
  · rw [if_pos hg]
    simp only [Except.ok.injEq, Prod.mk.injEq, true_and]
    constructor
    · rintro ⟨rfl, rfl⟩
      exact ⟨hg, rfl, rfl⟩
    · rintro ⟨-, rfl, rfl⟩
      exact ⟨rfl, rfl⟩
  · rw [if_neg hg]
    cases s.m_commandAllocator <;> cases s.m_commandList <;> cases s.m_rtvHeap <;> simp [hg]

/-- `End3D` returns false exactly when no frame is open or the device handle is empty, and
then changes nothing and issues no call. -/
theorem End3D_false_iff (s s1 : State F) (c : List Call) :
    End3D s = .ok (false, s1, c) ↔
      (s.m_bIn3D = false ∨ s.m_pD3DDevice = none) ∧ s1 = s ∧ c = [] := by
  unfold End3D
  by_cases hg : s.m_bIn3D = false ∨ s.m_pD3DDevice = none
  · rw [if_pos hg]
    simp only [Except.ok.injEq, Prod.mk.injEq, true_and]
    constructor
    · rintro ⟨rfl, rfl⟩
      exact ⟨hg, rfl, rfl⟩
    · rintro ⟨-, rfl, rfl⟩
      exact ⟨rfl, rfl⟩
  · rw [if_neg hg]
    dsimp only
    cases s.m_commandList <;> cases s.m_commandQueue <;> simp [hg]

/-- When `End3D` returns true a frame was open and the only member it changes is the
frame-open flag. -/
theorem End3D_true (s s1 : State F) (c : List Call) (h : End3D s = .ok (true, s1, c)) :
    s.m_bIn3D = true ∧ s.m_pD3DDevice ≠ none ∧ s1 = { s with m_bIn3D := false } := by
  unfold End3D at h
  by_cases hg : s.m_bIn3D = false ∨ s.m_pD3DDevice = none
  · rw [if_pos hg] at h
    simp at h
  · rw [if_neg hg] at h
    have h1 : s.m_bIn3D = true := by
      cases hb : s.m_bIn3D
      · exact absurd (Or.inl hb) hg
      · rfl
    refine ⟨h1, fun hd => hg (Or.inr hd), ?_⟩
    dsimp only at h
    cases hl : s.m_commandList with
    | none => simp [hl] at h
    | some l =>
      cases hq : s.m_commandQueue with
      | none => simp [hl, hq] at h
      | some q =>
        simp only [hl, hq, Except.ok.injEq, Prod.mk.injEq, true_and] at h
        exact h.1.symm

/-- The read `m_renderTargets[i]` is inside the array exactly when `i < m_frameCount`. -/
theorem RenderTargets_get_inside (r : RenderTargets) (i : Nat) :
    (∃ rt, r.get i = some rt) ↔ i < m_frameCount := by
  unfold RenderTargets.get m_frameCount
  rcases i with _ | _ | i <;> simp

/-- C4 as the code has it: a second `Start3D` right after one that returned true returns
false and changes no member; `Start3D` returns false (changing nothing) exactly when a frame
is open or the device handle is empty; it returns true exactly when no frame is open and the
device, command allocator, command list and render-target heap handles are non-empty; and
when it returns true the only member it changes is the frame-open flag, which becomes
true. -/
theorem Start3D_contract (env env2 : Env) (s : State F) :
    (∀ s1 c, Start3D env s = .ok (true, s1, c) → Start3D env2 s1 = .ok (false, s1, [])) ∧
    (Start3D env s = .ok (false, s, []) ↔ (s.m_bIn3D = true ∨ s.m_pD3DDevice = none)) ∧
    ((∃ s1 c, Start3D env s = .ok (true, s1, c)) ↔
      (s.m_bIn3D = false ∧ s.m_pD3DDevice ≠ none ∧ s.m_commandAllocator ≠ none ∧
        s.m_commandList ≠ none ∧ s.m_rtvHeap ≠ none)) ∧
    (∀ s1 c, Start3D env s = .ok (true, s1, c) → s1 = { s with m_bIn3D := true }) := by
  refine ⟨?_, ?_, ?_, ?_⟩
  · intro s1 c h
    obtain ⟨-, rfl, -⟩ := (Start3D_true_iff env s s1 c).1 h
    exact (Start3D_false_iff env2 _ _ _).2 ⟨Or.inl rfl, rfl, rfl⟩
  · rw [Start3D_false_iff]
    simp
  · constructor
    · rintro ⟨s1, c, h⟩
      exact ((Start3D_true_iff env s s1 c).1 h).1
    · intro h
      exact ⟨_, _, (Start3D_true_iff env s _ _).2 ⟨h, rfl, rfl⟩⟩
  · intro s1 c h
    exact ((Start3D_true_iff env s s1 c).1 h).2.1

/-- The witness of C4: on a live idle device `Start3D` returns true and only sets the
frame-open flag; called again at once it returns false and changes nothing. The same holds
with the back-buffer index outside the array, which `Start3D` does not check. -/
theorem Start3D_contract_witness :
    Start3D envOk openFrame = .ok (false, openFrame, []) ∧
    openFrame = { liveDevice with m_bIn3D := true } ∧
    (∃ s1 c, Start3D envOk liveDevice = .ok (true, s1, c)) ∧
    (∃ s1 c, Start3D envOk { liveDevice with m_frameIndex := 2 } = .ok (true, s1, c)) :=
  ⟨(Start3D_contract envOk envOk liveDevice).1 openFrame
      [Call.allocatorReset, Call.listReset, Call.rsSetViewports, Call.rsSetScissorRects,
       Call.resourceBarrier (some 10) true, Call.omSetRenderTargets 4096,
       Call.clearRenderTargetView 4096] rfl,
   (Start3D_contract envOk envOk liveDevice).2.2.2 openFrame
      [Call.allocatorReset, Call.listReset, Call.rsSetViewports, Call.rsSetScissorRects,
       Call.resourceBarrier (some 10) true, Call.omSetRenderTargets 4096,
       Call.clearRenderTargetView 4096] rfl,
   (Start3D_contract envOk envOk liveDevice).2.2.1.2
      ⟨rfl, by decide, by decide, by decide, by decide⟩,
   (Start3D_contract envOk envOk { liveDevice with m_frameIndex := 2 }).2.2.1.2
      ⟨rfl, by decide, by decide, by decide, by decide⟩⟩

/-- C4 as stated fails: the state `CreateDevice` leaves from a live device when queue
creation fails has no frame open and a non-empty device handle, yet `Start3D` does not
return true there: it goes through the empty command allocator. -/
theorem Start3D_device_only_counterexample :
    CreateDevice exactInt envNoQueue (some 100) (some 101) (some mode800) liveDevice
      = .ok (false, deviceOnly,
          [Call.signal (some 12) 1, Call.setEventOnCompletion 1 (some 13),
           Call.waitForSingleObject (some 13), Call.closeHandle 13,
           Call.debugLog "[D3DRender]Error: Command objects creation failed."]) ∧
    Start3D envOk deviceOnly = .error .emptyHandle ∧
    ¬ ((∃ s1 c, Start3D envOk deviceOnly = .ok (true, s1, c)) ↔
        (deviceOnly.m_bIn3D = false ∧ deviceOnly.m_pD3DDevice ≠ none)) := by
  refine ⟨rfl, rfl, ?_⟩
  intro h
  obtain ⟨s1, c, h1⟩ := h.2 ⟨rfl, by decide⟩
  have h2 : Start3D envOk deviceOnly = .error .emptyHandle := rfl
  rw [h2] at h1
  cases h1

/-- `End3D` returns true exactly when a frame is open and the device, command list and
command queue handles are non-empty. -/
theorem End3D_true_iff (s : State F) :
    (∃ s1 c, End3D s = .ok (true, s1, c)) ↔
      s.m_bIn3D = true ∧ s.m_pD3DDevice ≠ none ∧ s.m_commandList ≠ none ∧
        s.m_commandQueue ≠ none := by
  constructor
  · rintro ⟨s1, c, h⟩
    obtain ⟨hb, hd, -⟩ := End3D_true s s1 c h
    unfold End3D at h
    have hg : ¬ (s.m_bIn3D = false ∨ s.m_pD3DDevice = none) := by
      rintro (hx | hx)
      · rw [hb] at hx
        cases hx
      · exact hd hx
    rw [if_neg hg] at h
    dsimp only at h
    cases hl : s.m_commandList with
    | none => simp [hl] at h
    | some l =>
      cases hq : s.m_commandQueue with
      | none => simp [hl, hq] at h
      | some q => exact ⟨hb, hd, by simp, by simp⟩
  · rintro ⟨hb, hd, hl, hq⟩
    have hg : ¬ (s.m_bIn3D = false ∨ s.m_pD3DDevice = none) := by
      rintro (hx | hx)
      · rw [hb] at hx
        cases hx
      · exact hd hx
    obtain ⟨l, hl1⟩ := Option.ne_none_iff_exists'.1 hl
    obtain ⟨q, hq1⟩ := Option.ne_none_iff_exists'.1 hq
    refine ⟨{ s with m_bIn3D := false },
      [barrierCall { s with m_bIn3D := false } false, Call.listClose,
       Call.executeCommandLists l], ?_⟩
    unfold End3D
    rw [if_neg hg]
    simp only [hl1, hq1]

/-- C5: with no frame open `End3D` returns false, changes no member and issues no call (so
nothing is submitted); with a frame open, in a state that is coherent as every public
operation leaves it, `End3D` returns true, clears the frame-open flag and changes nothing
else, submits the command list, and a second `End3D` right after returns false. -/
theorem End3D_contract (s : State F) :
    (s.m_bIn3D = false → End3D s = .ok (false, s, [])) ∧
    (Coherent s → s.m_bIn3D = true →
      ∃ rt l, s.m_renderTargets.get s.m_frameIndex = some rt ∧ s.m_commandList = some l ∧
        End3D s = .ok (true, { s with m_bIn3D := false },
          [Call.resourceBarrier rt false, Call.listClose, Call.executeCommandLists l]) ∧
        End3D { s with m_bIn3D := false } = .ok (false, { s with m_bIn3D := false }, [])) := by
  constructor
  · intro h
    exact (End3D_false_iff s s []).2 ⟨Or.inl h, rfl, rfl⟩
  · intro hc hopen
    obtain ⟨hd, hl, hi⟩ := hc.2 hopen
    have hq := hc.1 hl
    have hg : ¬ (s.m_bIn3D = false ∨ s.m_pD3DDevice = none) := by
      rintro (h | h)
      · rw [hopen] at h
        cases h
      · exact hd h
    obtain ⟨rt, hrt⟩ := (RenderTargets_get_inside s.m_renderTargets s.m_frameIndex).2 hi
    obtain ⟨l, hl1⟩ := Option.ne_none_iff_exists'.1 hl
    obtain ⟨q, hq1⟩ := Option.ne_none_iff_exists'.1 hq
    refine ⟨rt, l, hrt, hl1, ?_, ?_⟩
    · unfold End3D
      rw [if_neg hg]
      simp only [hl1, hq1, barrierCall, hrt]
    · exact (End3D_false_iff _ _ []).2 ⟨Or.inl rfl, rfl, rfl⟩

/-- The witness of C5: an idle live device refuses `End3D`; with a frame open `End3D`
submits the command list, clears the flag, and a second `End3D` is refused. -/
theorem End3D_contract_witness :
    End3D liveDevice = .ok (false, liveDevice, []) ∧
    ∃ rt l, openFrame.m_renderTargets.get openFrame.m_frameIndex = some rt ∧
      openFrame.m_commandList = some l ∧
      End3D openFrame = .ok (true, { openFrame with m_bIn3D := false },
        [Call.resourceBarrier rt false, Call.listClose, Call.executeCommandLists l]) ∧
      End3D { openFrame with m_bIn3D := false }
        = .ok (false, { openFrame with m_bIn3D := false }, []) :=
  ⟨(End3D_contract liveDevice).1 rfl,
   (End3D_contract openFrame).2 (by unfold Coherent; decide) rfl⟩

/-- `Present` completes exactly when the swap chain, the queue and the fence are all
non-empty; the device handle is not looked at. -/
theorem Present_completes_iff (env : Env) (s : State F) :
    (∃ r, Present env s = .ok r) ↔
      s.m_swapChain ≠ none ∧ s.m_commandQueue ≠ none ∧ s.m_fence ≠ none := by
  rw [← WaitForGPU_completes_iff env s]
  unfold Present
  cases hs : s.m_swapChain with
  | none => simp
  | some sc =>
    cases h : WaitForGPU env s with
    | error e => simp
    | ok r => obtain ⟨s1, c1⟩ := r; simp

/-- C8 as the code has it: in every state whose swap chain, command queue and fence
handles are non-empty `Present` completes; afterwards the back-buffer index is the one the
swap chain reports, the fence counter is the previous value plus one modulo `2 ^ 64` (so
strictly greater unless the previous value was `2 ^ 64 - 1`), the one value signalled to the
queue is the previous counter value, and no other member changes. -/
theorem Present_contract (env : Env) (s : State F) (hs : s.m_swapChain ≠ none)
    (hq : s.m_commandQueue ≠ none) (hf : s.m_fence ≠ none) :
    ∃ c, Present env s
        = .ok ({ s with
                 m_fenceValue := (s.m_fenceValue + 1) % 2 ^ 64
                 m_frameIndex := env.backBufferIndex },
            Call.swapChainPresent 1 :: Call.signal s.m_fence s.m_fenceValue :: c) ∧
      (∀ x ∈ c, ∀ f v, x ≠ Call.signal f v) ∧
      (s.m_fenceValue + 1 < 2 ^ 64 →
        (s.m_fenceValue + 1) % 2 ^ 64 = s.m_fenceValue + 1 ∧
        s.m_fenceValue < (s.m_fenceValue + 1) % 2 ^ 64) := by
  obtain ⟨c, hc, hno⟩ := WaitForGPU_ok env s hq hf
  obtain ⟨sc, hsc⟩ := Option.ne_none_iff_exists'.1 hs
  refine ⟨c, ?_, hno, ?_⟩
  · unfold Present
    simp only [hsc, hc]
  · intro hlt
    rw [Nat.mod_eq_of_lt hlt]
    exact ⟨rfl, Nat.lt_succ_self _⟩

/-- The witness of C8: presenting on a live device whose counter is 1 signals 1, leaves the
counter at 2 and takes the index the swap chain reports. -/
theorem Present_contract_witness :
    ∃ c, Present envOk liveDevice
        = .ok ({ liveDevice with
                 m_fenceValue := (liveDevice.m_fenceValue + 1) % 2 ^ 64
                 m_frameIndex := envOk.backBufferIndex },
            Call.swapChainPresent 1
              :: Call.signal liveDevice.m_fence liveDevice.m_fenceValue :: c) ∧
      (∀ x ∈ c, ∀ f v, x ≠ Call.signal f v) ∧
      (liveDevice.m_fenceValue + 1 < 2 ^ 64 →
        (liveDevice.m_fenceValue + 1) % 2 ^ 64 = liveDevice.m_fenceValue + 1 ∧
        liveDevice.m_fenceValue < (liveDevice.m_fenceValue + 1) % 2 ^ 64) :=
  Present_contract envOk liveDevice (by decide) (by decide) (by decide)

/-- C8 as stated fails. The state `CreateDevice` leaves from a live device when swap chain
creation fails has a non-empty device handle, yet `Present` does not complete there: it
goes through the empty swap chain. The same happens on the device a `CreateDevice` that
returned true leaves when the fence could not be created. And on a live device whose
counter holds `2 ^ 64 - 1`, `Present` leaves the counter at 0, which is not greater. -/
theorem Present_counterexample :
    (CreateDevice exactInt envNoSwapChain (some 100) (some 101) (some mode800) liveDevice
        = .ok (false, noSwapChain,
            [Call.signal (some 12) 1, Call.setEventOnCompletion 1 (some 13),
             Call.waitForSingleObject (some 13), Call.closeHandle 13, Call.listClose,
             Call.debugLog "[D3DRender]Error: Swap chain creation failed."]) ∧
      noSwapChain.m_pD3DDevice ≠ none ∧
      Present envOk noSwapChain = .error .emptyHandle) ∧
    (noFence.m_pD3DDevice ≠ none ∧ Present envOk noFence = .error .emptyHandle) ∧
    (lastFenceValue.m_pD3DDevice ≠ none ∧
      ∃ s1 c, Present envOk lastFenceValue = .ok (s1, c) ∧ s1.m_fenceValue = 0 ∧
        ¬ lastFenceValue.m_fenceValue < s1.m_fenceValue) := by
  refine ⟨⟨rfl, by decide, rfl⟩, ⟨by decide, rfl⟩, by decide, _, _, rfl, rfl, by decide⟩

end Frame

section Creation

variable {F : Type}

/-- What the part of `CreateDevice` after the teardown leaves when it starts from a cleared
state and completes, and how its result relates to the outcome of the five stages. -/
theorem rebuild_spec (fl : FloatOps F) (env : Env) (a d : Option Nat)
    (m : Option D3DModeInfo) (s0 : State F) (c0 : List Call) (h0 : Cleared s0)
    (hc0 : ∀ x ∈ c0, ∀ msg, x ≠ Call.debugLog msg) (r : Bool) (s1 : State F)
    (log : List Call) (h : CreateDevice.rebuild fl env a d m s0 c0 = .ok (r, s1, log)) :
    s1.m_bIn3D = false ∧ s1.m_rcViewport = s0.m_rcViewport ∧ s1.m_pAdapter = a ∧
    s1.m_pDevice = d ∧ s1.m_pMode = m ∧
    (s1.m_commandList ≠ none → s1.m_commandQueue ≠ none) ∧
    (r = true →
      s1.m_factory ≠ none ∧ s1.m_pD3DDevice ≠ none ∧ s1.m_commandQueue ≠ none ∧
      s1.m_commandAllocator ≠ none ∧ s1.m_commandList ≠ none ∧ s1.m_swapChain ≠ none ∧
      s1.m_rtvHeap ≠ none ∧ s1.m_dsvHeap ≠ none ∧ s1.m_renderTargets.slot0 ≠ none ∧
      s1.m_renderTargets.slot1 ≠ none ∧ s1.m_fence = env.fence ∧
      s1.m_fenceEvent = env.fenceEvent ∧ s1.m_fenceValue = 1 ∧
      s1.m_frameIndex = env.backBufferIndex) ∧
    (r = false →
      s1.m_fence = none ∧ s1.m_fenceEvent = none ∧ s1.m_fenceValue = 0 ∧
      ∃ k, runStages env Stage.all
          { s0 with m_pAdapter := a, m_pDevice := d, m_pMode := m } = .ok (some k, s1) ∧
        Call.debugLog (Stage.message k) ∈ log ∧ heldBefore k s1 ∧ emptyAfter k s1) ∧
    (∀ k, Call.debugLog (Stage.message k) ∈ log →
      r = false ∧ heldBefore k s1 ∧ emptyAfter k s1) ∧
    (r = true →
      ∃ s6, runStages env Stage.all
          { s0 with m_pAdapter := a, m_pDevice := d, m_pMode := m } = .ok (none, s6)) ∧
    (s1.m_frameIndex = 0 ∨ s1.m_frameIndex = env.backBufferIndex) := by
  obtain ⟨h1, h2, h3, h4, h5, h6, h7, h8, h9, h10, h11, h12, h13, h14, h15, h16, h17,
    h18, h19⟩ := h0
  have hmem : ∀ msg, Call.debugLog msg ∉ c0 := fun msg hm => hc0 _ hm msg rfl
  unfold CreateDevice.rebuild InitializeD3D12 CreateCommandObjects CreateSwapChain
    CreateDescriptorHeaps CreateRenderTargets CreateFence SetDefaultRenderStates at h
  simp only [h1, m_frameCount, renderTargetLoop] at h
  cases hfa : env.factory <;> simp only [hfa] at h
  rotate_left
  cases hdev : enumAdapters env.adapters none <;> simp only [hdev] at h
  rotate_left
  cases hcq : env.commandQueue <;> simp only [hcq] at h
  rotate_left
  cases hca : env.commandAllocator <;> simp only [hca] at h
  rotate_left
  cases hcl : env.commandList <;> simp only [hcl] at h
  rotate_left
  rcases hm : m with _ | mode
  · simp only [hm] at h
    cases h
  simp only [hm] at h
  cases hs1 : env.swapChain1 <;> simp only [hs1] at h
  rotate_left
  cases hs3 : env.swapChain3 <;> simp only [hs3] at h
  rotate_left
  cases hrh : env.rtvHeap <;> simp only [hrh] at h
  rotate_left
  cases hdh : env.dsvHeap <;> simp only [hdh] at h
  rotate_left
  cases hb0 : env.buffers 0 <;> simp only [hb0] at h
  rotate_left
  cases hb1 : env.buffers (0 + 1) <;> simp only [hb1] at h
  rotate_left
  all_goals
    simp only [Except.ok.injEq, Prod.mk.injEq] at h
    obtain ⟨rfl, rfl, rfl⟩ := h
  all_goals
    refine ⟨?_, ?_, ?_, ?_, ?_, ?_, ?_, ?_, ?_, ?_, ?_⟩
  all_goals first
    | (simp [*, RenderTargets.set]; done)
    | (simp [runStages, Stage.all, Stage.run, Stage.message, heldBefore, emptyAfter,
        InitializeD3D12, CreateCommandObjects, CreateSwapChain, CreateDescriptorHeaps,
        CreateRenderTargets, renderTargetLoop, m_frameCount, RenderTargets.set, *]; done)
    | skip
  all_goals
    intro k hk
    cases k <;> simp [Stage.message, hmem] at hk <;>
      simp [heldBefore, emptyAfter, RenderTargets.set, *]

/-- When `CreateDevice` completes, its teardown `FreeDevice` completed (queue and fence were
non-empty) and the rest ran from the cleared state `ResetDeviceVars` leaves. -/
theorem CreateDevice_ok (fl : FloatOps F) (env : Env) (a d : Option Nat)
    (m : Option D3DModeInfo) (s : State F) (r : Bool) (s1 : State F) (log : List Call)
    (h : CreateDevice fl env a d m s = .ok (r, s1, log)) :
    s.m_commandQueue ≠ none ∧ s.m_fence ≠ none ∧
      ∃ c0, (∀ x ∈ c0, ∀ msg, x ≠ Call.debugLog msg) ∧
        CreateDevice.rebuild fl env a d m (ResetDeviceVars s) c0 = .ok (r, s1, log) := by
  unfold CreateDevice at h
  cases hfd : FreeDevice env s with
  | error e => simp [hfd] at h
  | ok res =>
    obtain ⟨hq, hf⟩ := (FreeDevice_completes_iff env s).1 ⟨res, hfd⟩
    obtain ⟨c, hc, hno⟩ := FreeDevice_ok env s hq hf
    rw [hc] at h
    exact ⟨hq, hf, c, hno, h⟩

/-- Everything `CreateDevice` guarantees about the state it leaves when it completes, and
how its result relates to the outcome of the five stages. -/
theorem CreateDevice_spec (fl : FloatOps F) (env : Env) (a d : Option Nat)
    (m : Option D3DModeInfo) (s : State F) (r : Bool) (s1 : State F) (log : List Call)
    (h : CreateDevice fl env a d m s = .ok (r, s1, log)) :
    s1.m_bIn3D = false ∧ s1.m_rcViewport = s.m_rcViewport ∧ s1.m_pAdapter = a ∧
    s1.m_pDevice = d ∧ s1.m_pMode = m ∧
    (s1.m_commandList ≠ none → s1.m_commandQueue ≠ none) ∧
    (r = true →
      s1.m_factory ≠ none ∧ s1.m_pD3DDevice ≠ none ∧ s1.m_commandQueue ≠ none ∧
      s1.m_commandAllocator ≠ none ∧ s1.m_commandList ≠ none ∧ s1.m_swapChain ≠ none ∧
      s1.m_rtvHeap ≠ none ∧ s1.m_dsvHeap ≠ none ∧ s1.m_renderTargets.slot0 ≠ none ∧
      s1.m_renderTargets.slot1 ≠ none ∧ s1.m_fence = env.fence ∧
      s1.m_fenceEvent = env.fenceEvent ∧ s1.m_fenceValue = 1 ∧
      s1.m_frameIndex = env.backBufferIndex) ∧
    (r = false →
      s1.m_fence = none ∧ s1.m_fenceEvent = none ∧ s1.m_fenceValue = 0 ∧
      ∃ k, runStages env Stage.all
          { ResetDeviceVars s with m_pAdapter := a, m_pDevice := d, m_pMode := m }
            = .ok (some k, s1) ∧
        Call.debugLog (Stage.message k) ∈ log ∧ heldBefore k s1 ∧ emptyAfter k s1) ∧
    (∀ k, Call.debugLog (Stage.message k) ∈ log →
      r = false ∧ heldBefore k s1 ∧ emptyAfter k s1) ∧
    (r = true →
      ∃ s6, runStages env Stage.all
          { ResetDeviceVars s with m_pAdapter := a, m_pDevice := d, m_pMode := m }
            = .ok (none, s6)) ∧
    (s1.m_frameIndex = 0 ∨ s1.m_frameIndex = env.backBufferIndex) := by
  obtain ⟨-, -, c0, hno, hr⟩ := CreateDevice_ok fl env a d m s r s1 log h
  exact rebuild_spec fl env a d m _ c0 (ResetDeviceVars_cleared s) hno r s1 log hr

/-- What a `CreateDevice` that returns true guarantees: the ten handles the checked stages
obtain are non-empty, the fence counter is 1, no frame is open and the back-buffer index is
the one the swap chain reported; the fence and its wait event are whatever their unchecked
creation calls gave. -/
theorem CreateDevice_true (fl : FloatOps F) (env : Env) (a d : Option Nat)
    (m : Option D3DModeInfo) (s s1 : State F) (log : List Call)
    (h : CreateDevice fl env a d m s = .ok (true, s1, log)) :
    s1.m_factory ≠ none ∧ s1.m_pD3DDevice ≠ none ∧ s1.m_commandQueue ≠ none ∧
    s1.m_commandAllocator ≠ none ∧ s1.m_commandList ≠ none ∧ s1.m_swapChain ≠ none ∧
    s1.m_rtvHeap ≠ none ∧ s1.m_dsvHeap ≠ none ∧ s1.m_renderTargets.slot0 ≠ none ∧
    s1.m_renderTargets.slot1 ≠ none ∧ s1.m_fence = env.fence ∧
    s1.m_fenceEvent = env.fenceEvent ∧ s1.m_fenceValue = 1 ∧ s1.m_bIn3D = false ∧
    s1.m_frameIndex = env.backBufferIndex ∧
    (env.backBufferIndex < m_frameCount → s1.m_frameIndex < 2) := by
  obtain ⟨h1, -, -, -, -, -, h7, -, -⟩ := CreateDevice_spec fl env a d m s true s1 log h
  obtain ⟨g1, g2, g3, g4, g5, g6, g7, g8, g9, g10, g11, g12, g13, g14⟩ := h7 rfl
  refine ⟨g1, g2, g3, g4, g5, g6, g7, g8, g9, g10, g11, g12, g13, h1, g14, ?_⟩
  intro hlt
  rw [g14]
  exact hlt

/-- C3, evaluated on the code: from a live device, in an environment where every checked
creation succeeds but the fence and its wait event cannot be created, `CreateDevice` still
returns true and leaves the fence and the event empty (with the counter at 1), so not every
required handle is non-empty. -/
theorem CreateDevice_true_without_fence :
    CreateDevice exactInt envNoFence (some 100) (some 101) (some mode800) liveDevice
      = .ok (true, noFence,
          [Call.signal (some 12) 1, Call.setEventOnCompletion 1 (some 13),
           Call.waitForSingleObject (some 13), Call.closeHandle 13,
           Call.listClose, Call.makeWindowAssociation,
           Call.createRenderTargetView 10 4096, Call.createRenderTargetView 11 4128,
           Call.debugLog "[D3DRender]Default render states set for DirectX 12.",
           Call.debugLog "[D3DRender]DirectX 12 device created successfully."]) ∧
    noFence.m_fence = none ∧ noFence.m_fenceEvent = none ∧ noFence.m_fenceValue = 1 ∧
    ¬ AllHandlesLive noFence ∧
    WaitForGPU envOk noFence = .error .emptyHandle := by
  refine ⟨rfl, rfl, rfl, rfl, ?_, rfl⟩
  unfold AllHandlesLive
  decide

/-- The state `FreeDevice` leaves, whenever it completes. -/
theorem FreeDevice_eq (env : Env) (s s1 : State F) (c : List Call)
    (h : FreeDevice env s = .ok (s1, c)) : s1 = ResetDeviceVars s := by
  obtain ⟨hq, hf⟩ := (FreeDevice_completes_iff env s).1 ⟨_, h⟩
  obtain ⟨c2, hc, -⟩ := FreeDevice_ok env s hq hf
  rw [hc] at h
  simp only [Except.ok.injEq, Prod.mk.injEq] at h
  exact h.1.symm

/-- The state `FreeAll` leaves, whenever it completes: as `FreeDevice`, with the cached
viewport rectangle zeroed. -/
theorem FreeAll_eq (env : Env) (s s1 : State F) (c : List Call)
    (h : FreeAll env s = .ok (s1, c)) :
    s1 = { ResetDeviceVars s with
           m_rcViewport := { left := 0, top := 0, right := 0, bottom := 0 } } ∧
      FreeDevice env s = .ok (ResetDeviceVars s, c) := by
  unfold FreeAll at h
  cases hfd : FreeDevice env s with
  | error e => simp [hfd] at h
  | ok res =>
    obtain ⟨s0, c0⟩ := res
    have hs0 := FreeDevice_eq env s s0 c0 hfd
    subst hs0
    simp only [hfd, Except.ok.injEq, Prod.mk.injEq] at h
    obtain ⟨rfl, rfl⟩ := h
    refine ⟨?_, rfl⟩
    simp [Reset, ResetDeviceVars, m_frameCount, List.range, List.range.loop,
      RenderTargets.set]

/-- C9 as the code has it: the teardown `CreateDevice` performs is `FreeDevice` alone, not
`FreeAll`. The state it leaves agrees with the one `FreeAll` would leave on every member
except the cached viewport rectangle, which `FreeDevice` keeps and `FreeAll` zeroes. So
every `CreateDevice` that completes keeps the cached rectangle, and a `SetupViewport` made
after it with the rectangle cached before is skipped as unchanged. -/
theorem CreateDevice_teardown_is_FreeDevice (fl : FloatOps F) (env : Env) (a d : Option Nat)
    (m : Option D3DModeInfo) (s : State F) :
    (CreateDevice fl env a d m s =
      match FreeDevice env s with
      | .error e => .error e
      | .ok (s0, c0) => CreateDevice.rebuild fl env a d m s0 c0) ∧
    (∀ s0 c0, FreeDevice env s = .ok (s0, c0) →
      s0 = ResetDeviceVars s ∧ s0.m_rcViewport = s.m_rcViewport ∧
      FreeAll env s = .ok ({ s0 with
        m_rcViewport := { left := 0, top := 0, right := 0, bottom := 0 } }, c0)) ∧
    (∀ r s1 log, CreateDevice fl env a d m s = .ok (r, s1, log) →
      s1.m_rcViewport = s.m_rcViewport ∧
      ∀ fMinZ fMaxZ, SetupViewport fl (toULONG s.m_rcViewport.left)
        (toULONG s.m_rcViewport.right) (toULONG s.m_rcViewport.top)
        (toULONG s.m_rcViewport.bottom) fMinZ fMaxZ s1 = s1) := by
  refine ⟨rfl, ?_, ?_⟩
  · intro s0 c0 h
    have hs0 := FreeDevice_eq env s s0 c0 h
    subst hs0
    refine ⟨rfl, rfl, ?_⟩
    unfold FreeAll
    rw [h]
    simp [Reset, ResetDeviceVars, m_frameCount, List.range, List.range.loop,
      RenderTargets.set]
  · intro r s1 log h
    have hrc := (CreateDevice_spec fl env a d m s r s1 log h).2.1
    refine ⟨hrc, ?_⟩
    intro fMinZ fMaxZ
    simp [SetupViewport, hrc]

/-- The witness of C9: on a live device whose cached rectangle is 0/0/400/300, the teardown
keeps the rectangle where `FreeAll` zeroes it, and the re-created device still has it, so
`SetupViewport` with that rectangle changes nothing. -/
theorem CreateDevice_teardown_is_FreeDevice_witness :
    (ResetDeviceVars smallViewport = ResetDeviceVars smallViewport ∧
      (ResetDeviceVars smallViewport).m_rcViewport = smallViewport.m_rcViewport ∧
      FreeAll envOk smallViewport = .ok ({ ResetDeviceVars smallViewport with
          m_rcViewport := { left := 0, top := 0, right := 0, bottom := 0 } },
        [Call.signal (some 12) 1, Call.setEventOnCompletion 1 (some 13),
         Call.waitForSingleObject (some 13), Call.closeHandle 13])) ∧
    ({ liveDevice with
        m_rcViewport := { left := 0, top := 0, right := 400, bottom := 300 } }.m_rcViewport
        = smallViewport.m_rcViewport ∧
      ∀ fMinZ fMaxZ, SetupViewport exactInt (toULONG smallViewport.m_rcViewport.left)
        (toULONG smallViewport.m_rcViewport.right) (toULONG smallViewport.m_rcViewport.top)
        (toULONG smallViewport.m_rcViewport.bottom) fMinZ fMaxZ
          { liveDevice with
            m_rcViewport := { left := 0, top := 0, right := 400, bottom := 300 } }
        = { liveDevice with
            m_rcViewport := { left := 0, top := 0, right := 400, bottom := 300 } }) :=
  ⟨(CreateDevice_teardown_is_FreeDevice exactInt envOk (some 100) (some 101)
      (some mode800) smallViewport).2.1 (ResetDeviceVars smallViewport)
      [Call.signal (some 12) 1, Call.setEventOnCompletion 1 (some 13),
       Call.waitForSingleObject (some 13), Call.closeHandle 13] rfl,
   (CreateDevice_teardown_is_FreeDevice exactInt envOk (some 100) (some 101)
      (some mode800) smallViewport).2.2 true
      { liveDevice with
        m_rcViewport := { left := 0, top := 0, right := 400, bottom := 300 } }
      [Call.signal (some 12) 1, Call.setEventOnCompletion 1 (some 13),
       Call.waitForSingleObject (some 13), Call.closeHandle 13,
       Call.listClose, Call.makeWindowAssociation,
       Call.createRenderTargetView 10 4096, Call.createRenderTargetView 11 4128,
       Call.debugLog "[D3DRender]Default render states set for DirectX 12.",
       Call.debugLog "[D3DRender]DirectX 12 device created successfully."] rfl⟩

/-- C9 as stated fails: on a live device whose cached rectangle is 0/0/400/300 the teardown
of `CreateDevice` (`FreeDevice`) and `FreeAll` leave different states, the first keeping the
rectangle and the second zeroing it; after the re-creation the rectangle is still cached,
the viewport description has been reset to the full 800 by 600 mode, and
`SetupViewport(0, 400, 0, 300)` is skipped as unchanged. -/
theorem CreateDevice_teardown_not_FreeAll :
    (∃ sA sB c, FreeDevice envOk smallViewport = .ok (sA, c) ∧
      FreeAll envOk smallViewport = .ok (sB, c) ∧ sA ≠ sB ∧
      sA.m_rcViewport = { left := 0, top := 0, right := 400, bottom := 300 } ∧
      sB.m_rcViewport = { left := 0, top := 0, right := 0, bottom := 0 }) ∧
    (∃ s1 log, CreateDevice exactInt envOk (some 100) (some 101) (some mode800) smallViewport
        = .ok (true, s1, log) ∧
      s1.m_rcViewport = { left := 0, top := 0, right := 400, bottom := 300 } ∧
      s1.m_viewportData.Width = 800 ∧ s1.m_viewportData.Height = 600 ∧
      SetupViewportDefault exactInt 0 400 0 300 s1 = s1) := by
  refine ⟨⟨_, _, _, rfl, rfl, ?_, rfl, rfl⟩, ⟨_, _, rfl, rfl, rfl, rfl, rfl⟩⟩
  intro h
  have h2 := congrArg (fun x => x.m_rcViewport.right) h
  revert h2
  decide

end Creation

section Invariant

variable {F : Type}

/-- `SetupViewport` touches the cached rectangle, the viewport description and the scissor
rectangle only. -/
theorem SetupViewport_frame (fl : FloatOps F) (l r t b : Nat) (zmin zmax : F) (s : State F) :
    (SetupViewport fl l r t b zmin zmax s).m_bIn3D = s.m_bIn3D ∧
    (SetupViewport fl l r t b zmin zmax s).m_pD3DDevice = s.m_pD3DDevice ∧
    (SetupViewport fl l r t b zmin zmax s).m_commandList = s.m_commandList ∧
    (SetupViewport fl l r t b zmin zmax s).m_commandQueue = s.m_commandQueue ∧
    (SetupViewport fl l r t b zmin zmax s).m_frameIndex = s.m_frameIndex := by
  unfold SetupViewport
  split <;> simp

/-- The state `WaitForGPU` leaves, whenever it completes. -/
theorem WaitForGPU_eq (env : Env) (s s1 : State F) (c : List Call)
    (h : WaitForGPU env s = .ok (s1, c)) :
    s1 = { s with m_fenceValue := (s.m_fenceValue + 1) % 2 ^ 64 } := by
  obtain ⟨hq, hf⟩ := (WaitForGPU_completes_iff env s).1 ⟨_, h⟩
  obtain ⟨c2, hc, -⟩ := WaitForGPU_ok env s hq hf
  rw [hc] at h
  simp only [Except.ok.injEq, Prod.mk.injEq] at h
  exact h.1.symm

/-- The state `Present` leaves, whenever it completes. -/
theorem Present_eq (env : Env) (s s1 : State F) (c : List Call)
    (h : Present env s = .ok (s1, c)) :
    s1 = { s with
           m_fenceValue := (s.m_fenceValue + 1) % 2 ^ 64
           m_frameIndex := env.backBufferIndex } := by
  unfold Present at h
  cases hs : s.m_swapChain with
  | none => simp [hs] at h
  | some sc =>
    cases hw : WaitForGPU env s with
    | error e => simp [hs, hw] at h
    | ok res =>
      obtain ⟨s2, c2⟩ := res
      have h2 := WaitForGPU_eq env s s2 c2 hw
      subst h2
      simp only [hs, hw, Except.ok.injEq, Prod.mk.injEq] at h
      exact h.1.symm

/-- One completed public operation, seen from the frame-open flag: afterwards the flag is
only set together with a device, and it is set only by a `Start3D` that returned true or
because it was set before and the operation is not one that ends a frame. -/
theorem step_frame_flag (fl : FloatOps F) (op : Op F) (s s1 : State F) (r : Option Bool)
    (c : List Call) (h : step fl op s = .ok (r, s1, c))
    (hinv : s.m_bIn3D = true → s.m_pD3DDevice ≠ none) :
    (s1.m_bIn3D = true → s1.m_pD3DDevice ≠ none) ∧
    (s1.m_bIn3D = true →
      (∃ env, op = Op.start3D env ∧ r = some true) ∨
      (s.m_bIn3D = true ∧ op.endsFrame = false)) := by
  cases op with
  | createDevice env a d m =>
    simp only [step] at h
    cases hcd : CreateDevice fl env a d m s with
    | error e => simp [hcd] at h
    | ok res =>
      obtain ⟨r2, s2, c2⟩ := res
      simp only [hcd, Except.ok.injEq, Prod.mk.injEq] at h
      obtain ⟨-, rfl, -⟩ := h
      have h1 := (CreateDevice_spec fl env a d m s r2 s2 c2 hcd).1
      simp [h1]
  | setMode m =>
    simp only [step, SetMode, Except.ok.injEq, Prod.mk.injEq] at h
    obtain ⟨-, rfl, -⟩ := h
    exact ⟨hinv, fun hb => Or.inr ⟨hb, rfl⟩⟩
  | freeDevice env =>
    simp only [step] at h
    cases hfd : FreeDevice env s with
    | error e => simp [hfd] at h
    | ok res =>
      obtain ⟨s2, c2⟩ := res
      simp only [hfd, Except.ok.injEq, Prod.mk.injEq] at h
      obtain ⟨-, rfl, -⟩ := h
      have h1 := FreeDevice_eq env s s2 c2 hfd
      subst h1
      simp [ResetDeviceVars]
  | reset =>
    simp only [step, Except.ok.injEq, Prod.mk.injEq] at h
    obtain ⟨-, rfl, -⟩ := h
    simp [Reset, ResetDeviceVars]
  | resetDeviceVars =>
    simp only [step, Except.ok.injEq, Prod.mk.injEq] at h
    obtain ⟨-, rfl, -⟩ := h
    simp [ResetDeviceVars]
  | freeAll env =>
    simp only [step] at h
    cases hfa : FreeAll env s with
    | error e => simp [hfa] at h
    | ok res =>
      obtain ⟨s2, c2⟩ := res
      simp only [hfa, Except.ok.injEq, Prod.mk.injEq] at h
      obtain ⟨-, rfl, -⟩ := h
      have h1 := (FreeAll_eq env s s2 c2 hfa).1
      subst h1
      simp [ResetDeviceVars]
  | setupViewport l rr t b zmin zmax =>
    simp only [step, Except.ok.injEq, Prod.mk.injEq] at h
    obtain ⟨-, rfl, -⟩ := h
    obtain ⟨e1, e2, -⟩ := SetupViewport_frame fl l rr t b zmin zmax s
    rw [e1, e2]
    exact ⟨hinv, fun hb => Or.inr ⟨hb, rfl⟩⟩
  | start3D env =>
    simp only [step] at h
    cases hst : Start3D env s with
    | error e => simp [hst] at h
    | ok res =>
      obtain ⟨r2, s2, c2⟩ := res
      simp only [hst, Except.ok.injEq, Prod.mk.injEq] at h
      obtain ⟨rfl, rfl, -⟩ := h
      cases r2 with
      | true =>
        obtain ⟨hpre, rfl, -⟩ := (Start3D_true_iff env s s2 c2).1 hst
        exact ⟨fun _ => hpre.2.1, fun _ => Or.inl ⟨env, rfl, rfl⟩⟩
      | false =>
        obtain ⟨-, rfl, -⟩ := (Start3D_false_iff env s s2 c2).1 hst
        exact ⟨hinv, fun hb => Or.inr ⟨hb, rfl⟩⟩
  | end3D =>
    simp only [step] at h
    cases hen : End3D s with
    | error e => simp [hen] at h
    | ok res =>
      obtain ⟨r2, s2, c2⟩ := res
      simp only [hen, Except.ok.injEq, Prod.mk.injEq] at h
      obtain ⟨rfl, rfl, -⟩ := h
      cases r2 with
      | true =>
        obtain ⟨-, -, rfl⟩ := End3D_true s s2 c2 hen
        simp
      | false =>
        obtain ⟨hg, rfl, -⟩ := (End3D_false_iff s s2 c2).1 hen
        have hclosed : s2.m_bIn3D = false := by
          rcases hg with hg | hg
          · exact hg
          · cases hb : s2.m_bIn3D
            · rfl
            · exact absurd hg (hinv hb)
        simp [hclosed]
  | present env =>
    simp only [step] at h
    cases hp : Present env s with
    | error e => simp [hp] at h
    | ok res =>
      obtain ⟨s2, c2⟩ := res
      simp only [hp, Except.ok.injEq, Prod.mk.injEq] at h
      obtain ⟨-, rfl, -⟩ := h
      have h1 := Present_eq env s s2 c2 hp
      subst h1
      exact ⟨hinv, fun hb => Or.inr ⟨hb, rfl⟩⟩
  | waitForGPU env =>
    simp only [step] at h
    cases hw : WaitForGPU env s with
    | error e => simp [hw] at h
    | ok res =>
      obtain ⟨s2, c2⟩ := res
      simp only [hw, Except.ok.injEq, Prod.mk.injEq] at h
      obtain ⟨-, rfl, -⟩ := h
      have h1 := WaitForGPU_eq env s s2 c2 hw
      subst h1
      exact ⟨hinv, fun hb => Or.inr ⟨hb, rfl⟩⟩

/-- A history ending in a `Start3D` that returned true, or extending an opened history by
an operation that does not end a frame, is an opened history. -/
theorem OpenedByStart3D_snoc (evs : List (Op F × Option Bool)) (e : Op F × Option Bool)
    (h : (∃ env, e = (Op.start3D env, some true)) ∨
      (OpenedByStart3D evs ∧ e.1.endsFrame = false)) :
    OpenedByStart3D (evs ++ [e]) := by
  rcases h with ⟨env, rfl⟩ | ⟨⟨pre, env, post, rfl, hpost⟩, he⟩
  · exact ⟨evs, env, [], rfl, by simp⟩
  · refine ⟨pre, env, post ++ [e], by simp, ?_⟩
    intro x hx
    rcases List.mem_append.1 hx with hx | hx
    · exact hpost x hx
    · simp only [List.mem_singleton] at hx
      rw [hx]
      exact he

/-- C10: in every state reached from a state with no frame open (the constructed state is
one) by completed public operations, the frame-open flag is set only if the device handle
is non-empty and the history has a `Start3D` that returned true with no `End3D`, teardown
or `CreateDevice` after it; hence the guard of `End3D`, no frame open or no device, holds
exactly when no frame is open. -/
theorem frame_open_only_after_Start3D (fl : FloatOps F) (s0 s : State F)
    (evs : List (Op F × Option Bool)) (h0 : s0.m_bIn3D = false) (hrun : Run fl s0 evs s) :
    (s.m_bIn3D = true → s.m_pD3DDevice ≠ none ∧ OpenedByStart3D evs) ∧
    ((s.m_bIn3D = false ∨ s.m_pD3DDevice = none) ↔ s.m_bIn3D = false) := by
  have key : s.m_bIn3D = true → s.m_pD3DDevice ≠ none ∧ OpenedByStart3D evs := by
    induction hrun with
    | start => intro h; rw [h0] at h; cases h
    | next hprev hstep ih =>
      rename_i s2 s3 evs2 op r c
      intro hb
      obtain ⟨k1, k2⟩ := step_frame_flag fl op s2 s3 r c hstep (fun h => (ih h).1)
      refine ⟨k1 hb, OpenedByStart3D_snoc evs2 (op, r) ?_⟩
      rcases k2 hb with ⟨env, rfl, rfl⟩ | ⟨hb2, hnot⟩
      · exact Or.inl ⟨env, rfl⟩
      · exact Or.inr ⟨(ih hb2).2, hnot⟩
  refine ⟨key, ?_⟩
  constructor
  · rintro (h | h)
    · exact h
    · cases hb : s.m_bIn3D
      · rfl
      · exact absurd h (key hb).1
  · exact Or.inl

/-- The witness of C10. From the constructed state, `SetupViewport` then a refused
`Start3D` leave no frame open. From a live idle device, a `Start3D` that returns true
followed by `SetupViewport` leaves the frame open, with the device held and the `Start3D`
in the history. -/
theorem frame_open_only_after_Start3D_witness :
    (((SetupViewport exactInt 0 800 0 600 0 1 (construct zeroMemory)).m_bIn3D = true →
        (SetupViewport exactInt 0 800 0 600 0 1 (construct zeroMemory)).m_pD3DDevice ≠ none ∧
        OpenedByStart3D [(Op.setupViewport 0 800 0 600 (0 : Int) 1, none),
          (Op.start3D envOk, some false)]) ∧
      (((SetupViewport exactInt 0 800 0 600 0 1 (construct zeroMemory)).m_bIn3D = false ∨
          (SetupViewport exactInt 0 800 0 600 0 1 (construct zeroMemory)).m_pD3DDevice = none)
        ↔ (SetupViewport exactInt 0 800 0 600 0 1 (construct zeroMemory)).m_bIn3D = false)) ∧
    ((SetupViewport exactInt 0 800 0 600 0 1 openFrame).m_pD3DDevice ≠ none ∧
      OpenedByStart3D [(Op.start3D envOk, some true),
        (Op.setupViewport 0 800 0 600 (0 : Int) 1, none)]) :=
  ⟨frame_open_only_after_Start3D exactInt (construct zeroMemory)
      (SetupViewport exactInt 0 800 0 600 0 1 (construct zeroMemory))
      [(Op.setupViewport 0 800 0 600 (0 : Int) 1, none), (Op.start3D envOk, some false)] rfl
      (Run.next
        (Run.next (Run.start (construct zeroMemory))
          (show step exactInt (Op.setupViewport 0 800 0 600 (0 : Int) 1) (construct zeroMemory)
            = .ok (none, SetupViewport exactInt 0 800 0 600 0 1 (construct zeroMemory), [])
            from rfl))
        (show step exactInt (Op.start3D envOk)
            (SetupViewport exactInt 0 800 0 600 0 1 (construct zeroMemory))
            = .ok (some false, SetupViewport exactInt 0 800 0 600 0 1 (construct zeroMemory), [])
            from rfl)),
   (frame_open_only_after_Start3D exactInt liveDevice
      (SetupViewport exactInt 0 800 0 600 0 1 openFrame)
      [(Op.start3D envOk, some true), (Op.setupViewport 0 800 0 600 (0 : Int) 1, none)] rfl
      (Run.next
        (Run.next (Run.start liveDevice)
          (show step exactInt (Op.start3D envOk) liveDevice
            = .ok (some true, openFrame,
                [Call.allocatorReset, Call.listReset, Call.rsSetViewports,
                 Call.rsSetScissorRects, Call.resourceBarrier (some 10) true,
                 Call.omSetRenderTargets 4096, Call.clearRenderTargetView 4096])
            from rfl))
        (show step exactInt (Op.setupViewport 0 800 0 600 (0 : Int) 1) openFrame
            = .ok (none, SetupViewport exactInt 0 800 0 600 0 1 openFrame, [])
            from rfl))).1 rfl⟩

/-- The constructed state is coherent and its back-buffer index is inside the array. -/
theorem Coherent_construct (raw : State F) :
    Coherent (construct raw) ∧ IndexInArray (construct raw) := by
  simp [Coherent, IndexInArray, m_frameCount, construct, Reset, ResetDeviceVars]

/-- Every completed public operation keeps a coherent state with its index inside the array
that way, as long as the swap chain reports an index below `m_frameCount`. -/
theorem Coherent_step (fl : FloatOps F) (op : Op F) (s s1 : State F) (r : Option Bool)
    (c : List Call) (h : step fl op s = .ok (r, s1, c)) (hop : op.inContract)
    (hc : Coherent s) (hi : IndexInArray s) : Coherent s1 ∧ IndexInArray s1 := by
  obtain ⟨hc1, hc2⟩ := hc
  unfold IndexInArray at hi ⊢
  cases op with
  | createDevice env a d m =>
    simp only [step] at h
    cases hcd : CreateDevice fl env a d m s with
    | error e => simp [hcd] at h
    | ok res =>
      obtain ⟨r2, s2, c2⟩ := res
      simp only [hcd, Except.ok.injEq, Prod.mk.injEq] at h
      obtain ⟨-, rfl, -⟩ := h
      obtain ⟨h1, -, -, -, -, h6, -, -, -, -, h11⟩ :=
        CreateDevice_spec fl env a d m s r2 s2 c2 hcd
      refine ⟨⟨h6, by simp [h1]⟩, ?_⟩
      rcases h11 with h11 | h11
      · rw [h11]
        decide
      · rw [h11]
        exact hop
  | setMode m =>
    simp only [step, SetMode, Except.ok.injEq, Prod.mk.injEq] at h
    obtain ⟨-, rfl, -⟩ := h
    exact ⟨⟨hc1, hc2⟩, hi⟩
  | freeDevice env =>
    simp only [step] at h
    cases hfd : FreeDevice env s with
    | error e => simp [hfd] at h
    | ok res =>
      obtain ⟨s2, c2⟩ := res
      simp only [hfd, Except.ok.injEq, Prod.mk.injEq] at h
      obtain ⟨-, rfl, -⟩ := h
      have h1 := FreeDevice_eq env s s2 c2 hfd
      subst h1
      simp [Coherent, ResetDeviceVars, m_frameCount]
  | reset =>
    simp only [step, Except.ok.injEq, Prod.mk.injEq] at h
    obtain ⟨-, rfl, -⟩ := h
    simp [Coherent, Reset, ResetDeviceVars, m_frameCount]
  | resetDeviceVars =>
    simp only [step, Except.ok.injEq, Prod.mk.injEq] at h
    obtain ⟨-, rfl, -⟩ := h
    simp [Coherent, ResetDeviceVars, m_frameCount]
  | freeAll env =>
    simp only [step] at h
    cases hfa : FreeAll env s with
    | error e => simp [hfa] at h
    | ok res =>
      obtain ⟨s2, c2⟩ := res
      simp only [hfa, Except.ok.injEq, Prod.mk.injEq] at h
      obtain ⟨-, rfl, -⟩ := h
      have h1 := (FreeAll_eq env s s2 c2 hfa).1
      subst h1
      simp [Coherent, ResetDeviceVars, m_frameCount]
  | setupViewport l rr t b zmin zmax =>
    simp only [step, Except.ok.injEq, Prod.mk.injEq] at h
    obtain ⟨-, rfl, -⟩ := h
    obtain ⟨e1, e2, e3, e4, e5⟩ := SetupViewport_frame fl l rr t b zmin zmax s
    unfold Coherent
    rw [e1, e2, e3, e4, e5]
    exact ⟨⟨hc1, hc2⟩, hi⟩
  | start3D env =>
    simp only [step] at h
    cases hst : Start3D env s with
    | error e => simp [hst] at h
    | ok res =>
      obtain ⟨r2, s2, c2⟩ := res
      simp only [hst, Except.ok.injEq, Prod.mk.injEq] at h
      obtain ⟨-, rfl, -⟩ := h
      cases r2 with
      | true =>
        obtain ⟨hpre, rfl, -⟩ := (Start3D_true_iff env s s2 c2).1 hst
        exact ⟨⟨hc1, fun _ => ⟨hpre.2.1, hpre.2.2.2.1, hi⟩⟩, hi⟩
      | false =>
        obtain ⟨-, rfl, -⟩ := (Start3D_false_iff env s s2 c2).1 hst
        exact ⟨⟨hc1, hc2⟩, hi⟩
  | end3D =>
    simp only [step] at h
    cases hen : End3D s with
    | error e => simp [hen] at h
    | ok res =>
      obtain ⟨r2, s2, c2⟩ := res
      simp only [hen, Except.ok.injEq, Prod.mk.injEq] at h
      obtain ⟨-, rfl, -⟩ := h
      cases r2 with
      | true =>
        obtain ⟨-, -, rfl⟩ := End3D_true s s2 c2 hen
        exact ⟨⟨hc1, by simp⟩, hi⟩
      | false =>
        obtain ⟨-, rfl, -⟩ := (End3D_false_iff s s2 c2).1 hen
        exact ⟨⟨hc1, hc2⟩, hi⟩
  | present env =>
    simp only [step] at h
    cases hp : Present env s with
    | error e => simp [hp] at h
    | ok res =>
      obtain ⟨s2, c2⟩ := res
      simp only [hp, Except.ok.injEq, Prod.mk.injEq] at h
      obtain ⟨-, rfl, -⟩ := h
      have h1 := Present_eq env s s2 c2 hp
      subst h1
      exact ⟨⟨hc1, fun hb => ⟨(hc2 hb).1, (hc2 hb).2.1, hop⟩⟩, hop⟩
  | waitForGPU env =>
    simp only [step] at h
    cases hw : WaitForGPU env s with
    | error e => simp [hw] at h
    | ok res =>
      obtain ⟨s2, c2⟩ := res
      simp only [hw, Except.ok.injEq, Prod.mk.injEq] at h
      obtain ⟨-, rfl, -⟩ := h
      have h1 := WaitForGPU_eq env s s2 c2 hw
      subst h1
      exact ⟨⟨hc1, hc2⟩, hi⟩

/-- Coherence, with the index inside the array, holds along every history of completed
public operations that starts in such a state, the constructed state included. -/
theorem Coherent_run (fl : FloatOps F) (s0 s : State F) (evs : List (Op F × Option Bool))
    (hrun : Run fl s0 evs s) (hops : ∀ e ∈ evs, e.1.inContract) (h0 : Coherent s0)
    (hi0 : IndexInArray s0) : Coherent s ∧ IndexInArray s := by
  induction hrun with
  | start => exact ⟨h0, hi0⟩
  | next hprev hstep ih =>
    rename_i s2 s3 evs2 op r c
    have hin : op.inContract := hops (op, r) (by simp)
    obtain ⟨k1, k2⟩ := ih (fun e he => hops e (List.mem_append_left _ he))
    exact Coherent_step fl op s2 s3 r c hstep hin k1 k2

end Invariant

section Checks

/-- Re-creating a live device in an environment where every creation succeeds gives the
live device again, with the calls in source order. -/
theorem CreateDevice_live_device :
    CreateDevice exactInt envOk (some 100) (some 101) (some mode800) liveDevice
      = .ok (true, liveDevice,
          [Call.signal (some 12) 1, Call.setEventOnCompletion 1 (some 13),
           Call.waitForSingleObject (some 13), Call.closeHandle 13,
           Call.listClose, Call.makeWindowAssociation,
           Call.createRenderTargetView 10 4096, Call.createRenderTargetView 11 4128,
           Call.debugLog "[D3DRender]Default render states set for DirectX 12.",
           Call.debugLog "[D3DRender]DirectX 12 device created successfully."]) := by
  rfl

/-- A full frame on a live device: `Start3D`, `End3D`, `Present`. -/
theorem frame_on_live_device :
    Start3D envOk liveDevice = .ok (true, openFrame,
      [Call.allocatorReset, Call.listReset, Call.rsSetViewports, Call.rsSetScissorRects,
       Call.resourceBarrier (some 10) true, Call.omSetRenderTargets 4096,
       Call.clearRenderTargetView 4096]) ∧
    End3D openFrame = .ok (true, liveDevice,
      [Call.resourceBarrier (some 10) false, Call.listClose, Call.executeCommandLists 5]) ∧
    Present { envOk with backBufferIndex := 1, completedValue := 1 } liveDevice
      = .ok ({ liveDevice with m_fenceValue := 2, m_frameIndex := 1 },
          [Call.swapChainPresent 1, Call.signal (some 12) 1]) := by
  exact ⟨rfl, rfl, rfl⟩

end Checks

end D3DDevice
